import Mathlib

/-!
Verification of the `pessoal` repository core: value objects
(`ValorMonetario`, `ReferenciaMensal`, `NormalizarData`), the PDF table
locator (`DataFrameWrapper.localizar_tabela_com_palavras_chave`), the
CELESC header detection (`detectar_indices_cabecalho_e_dados`), the SAMAE
current-row selection (`SamaeExtrator`), the entities (`ContaAgua`) and
the two synchronization services (`ContaLuzSyncService.sync_from_pdfs`,
`ContaAguaSyncService.sync_from_pdfs`).

Conventions of the embedding:
* Python strings are Lean `String`s; scanning works on `List Char`.
* Python regular-expression searches are modelled by explicit
  left-to-right scanners that mirror the concrete patterns used by the
  code, including the `\b` word boundaries (`\w` is modelled for the
  ASCII range, the only range the scanned texts use).
* `unicodedata.normalize("NFKD", ...)` followed by dropping combining
  characters is modelled by a character table covering the precomposed
  Latin accented letters that occur in the repository's keyword sets.
* `decimal.Decimal` values are modelled exactly as `mantissa * 10 ^ exp`
  (the default context precision of 28 digits is never exceeded by the
  monetary magnitudes in scope); special values (NaN/Infinity) and
  underscore grouping are outside the modelled input grammar — on those
  inputs construction also fails in the code (via `InvalidOperation`).
* Fallible Python code (raising `ValueError` etc.) returns `Option`, and
  the per-file extraction boundary of the sync services returns `Except`.
-/

/-! ## Text primitives -/

/-- Python `str.isspace`-style whitespace relevant to `str.strip()`
(ASCII range: space, tab, newline, carriage return, vertical tab, form feed). -/
def ehEspaco (c : Char) : Bool :=
  c == ' ' || c == '\t' || c == '\n' || c == '\r' || c == '\x0b' || c == '\x0c'

/-- Python `str.strip()` on a character list. -/
def stripLista (l : List Char) : List Char :=
  ((l.dropWhile ehEspaco).reverse.dropWhile ehEspaco).reverse

/-- Python `str.strip()`. -/
def stripTexto (s : String) : String :=
  String.mk (stripLista s.toList)

/-- A regex word character (`\w`), modelled for the ASCII range:
letters, digits and underscore. -/
def ehCaractereDePalavra (c : Char) : Bool :=
  c.isAlphanum || c == '_'

/-- Strips the accent of the precomposed Latin letters used by the
repository's keywords (NFKD-decompose + drop combining characters). -/
def removerAcento (c : Char) : Char :=
  match c with
  | 'á' | 'à' | 'â' | 'ã' | 'ä' => 'a'
  | 'Á' | 'À' | 'Â' | 'Ã' | 'Ä' => 'A'
  | 'é' | 'è' | 'ê' | 'ë' => 'e'
  | 'É' | 'È' | 'Ê' | 'Ë' => 'E'
  | 'í' | 'ì' | 'î' | 'ï' => 'i'
  | 'Í' | 'Ì' | 'Î' | 'Ï' => 'I'
  | 'ó' | 'ò' | 'ô' | 'õ' | 'ö' => 'o'
  | 'Ó' | 'Ò' | 'Ô' | 'Õ' | 'Ö' => 'O'
  | 'ú' | 'ù' | 'û' | 'ü' => 'u'
  | 'Ú' | 'Ù' | 'Û' | 'Ü' => 'U'
  | 'ç' => 'c'
  | 'Ç' => 'C'
  | 'ñ' => 'n'
  | 'Ñ' => 'N'
  | _ => c

/-- Models `_sem_acentos_minusculo`: NFKD-normalize, drop combining characters,
lowercase (shared by `DataFrameWrapper`, `CelescExtrator`, `SamaeExtrator`). -/
def semAcentosMinusculo (s : String) : String :=
  String.mk (s.toList.map (fun c => (removerAcento c).toLower))

/-- Models `p.isPrefixOf t` on character lists (decidable, executable). -/
def prefixoLista : List Char → List Char → Bool
  | [], _ => true
  | _ :: _, [] => false
  | p :: ps, t :: ts => p == t && prefixoLista ps ts

/-- Python's substring test `padrao in texto`. -/
def contemLista : List Char → List Char → Bool
  | p, [] => p.isEmpty
  | p, c :: ts => prefixoLista p (c :: ts) || contemLista p ts

/-- Python's substring test `padrao in texto` on `String`s. -/
def contemTexto (texto padrao : String) : Bool :=
  contemLista padrao.toList texto.toList

/-- Python's `" ".join(cells)`. -/
def textoLinha (linha : List String) : String :=
  String.intercalate " " linha

/-- Models `f"{n:02d}"`. -/
def pad2 (n : Nat) : String :=
  if n < 10 then "0" ++ toString n else toString n

/-- Four-digit zero padding, as in `date.isoformat()` years. -/
def pad4 (n : Nat) : String :=
  if n < 10 then "000" ++ toString n
  else if n < 100 then "00" ++ toString n
  else if n < 1000 then "0" ++ toString n
  else toString n

/-! ## Regex scanners

The repository uses three concrete patterns, all searched with
`re.search` (leftmost match):
* `\b(\d{2})/(\d{4})\b`   (`ReferenciaMensal`, `SamaeExtrator`)
* `\b(\d{1,2})/(\d{1,2})/(\d{4})\b`   (`NormalizarData`)
* the literal `\(atual\)` and the suffix `\s*\(atual\)\s*$`.
-/

/-- Digit value of an ASCII digit character. -/
def valorDigito (c : Char) : Nat := c.toNat - '0'.toNat

/-- A `\b` word boundary holds after the end of a match whose last
character is a word character: the next character, if any, must not be a
word character. -/
def fronteiraFinal : List Char → Bool
  | [] => true
  | c :: _ => !ehCaractereDePalavra c

/-- Attempts `(\d{2})/(\d{4})\b` at the head of the list, returning the
matched text and the numeric month and year. -/
def tentarMMYYYY : List Char → Option (String × Nat × Nat)
  | a :: b :: '/' :: c :: d :: e :: f :: resto =>
    if a.isDigit && b.isDigit && c.isDigit && d.isDigit && e.isDigit && f.isDigit
        && fronteiraFinal resto then
      some (String.mk [a, b, '/', c, d, e, f],
        10 * valorDigito a + valorDigito b,
        1000 * valorDigito c + 100 * valorDigito d + 10 * valorDigito e + valorDigito f)
    else none
  | _ => none

/-- Models `re.search(r"\b(\d{2})/(\d{4})\b", texto)`: scan left to right; a
match may start only at a word boundary (`fronteira` records whether the
previous character, if any, was a non-word character). -/
def buscarMMYYYYAux : Bool → List Char → Option (String × Nat × Nat)
  | _, [] => none
  | fronteira, c :: ts =>
    match (if fronteira then tentarMMYYYY (c :: ts) else none) with
    | some r => some r
    | none => buscarMMYYYYAux (!ehCaractereDePalavra c) ts

def buscarMMYYYY (l : List Char) : Option (String × Nat × Nat) :=
  buscarMMYYYYAux true l

/-- The claim's reading of the same search, WITHOUT the `\b` word
boundaries: "the first `\d{2}/\d{4}` match anywhere in the text".
Used only to compare the claim's words with the code. -/
def tentarMMYYYYSemFronteira : List Char → Option (String × Nat × Nat)
  | a :: b :: '/' :: c :: d :: e :: f :: _ =>
    if a.isDigit && b.isDigit && c.isDigit && d.isDigit && e.isDigit && f.isDigit then
      some (String.mk [a, b, '/', c, d, e, f],
        10 * valorDigito a + valorDigito b,
        1000 * valorDigito c + 100 * valorDigito d + 10 * valorDigito e + valorDigito f)
    else none
  | _ => none

def buscarMMYYYYSemFronteira : List Char → Option (String × Nat × Nat)
  | [] => none
  | c :: ts =>
    match tentarMMYYYYSemFronteira (c :: ts) with
    | some r => some r
    | none => buscarMMYYYYSemFronteira ts

/-- Takes exactly `n` digit characters from the front. -/
def pegarDigitos : Nat → List Char → Option (Nat × List Char)
  | 0, l => some (0, l)
  | _ + 1, [] => none
  | n + 1, c :: ts =>
    if c.isDigit then
      match pegarDigitos n ts with
      | some (v, resto) => some (valorDigito c * 10 ^ n + v, resto)
      | none => none
    else none

/-- One alternative `(\d{nd})/(\d{nm})/(\d{4})\b` at the head of the list. -/
def tentarDataFormato (nd nm : Nat) (l : List Char) : Option (Nat × Nat × Nat) :=
  match pegarDigitos nd l with
  | none => none
  | some (dia, r1) =>
    match r1 with
    | '/' :: r2 =>
      match pegarDigitos nm r2 with
      | none => none
      | some (mes, r3) =>
        match r3 with
        | '/' :: r4 =>
          match pegarDigitos 4 r4 with
          | none => none
          | some (ano, r5) => if fronteiraFinal r5 then some (dia, mes, ano) else none
        | _ => none
    | _ => none

/-- Models `(\d{1,2})/(\d{1,2})/(\d{4})\b` at the head of the list.  The greedy
`{1,2}` quantifiers backtrack in the order (2,2), (2,1), (1,2), (1,1). -/
def tentarData (l : List Char) : Option (Nat × Nat × Nat) :=
  match tentarDataFormato 2 2 l with
  | some r => some r
  | none =>
    match tentarDataFormato 2 1 l with
    | some r => some r
    | none =>
      match tentarDataFormato 1 2 l with
      | some r => some r
      | none => tentarDataFormato 1 1 l

/-- Models `re.search(r"\b(\d{1,2})/(\d{1,2})/(\d{4})\b", texto)`. -/
def buscarDataAux : Bool → List Char → Option (Nat × Nat × Nat)
  | _, [] => none
  | fronteira, c :: ts =>
    match (if fronteira then tentarData (c :: ts) else none) with
    | some r => some r
    | none => buscarDataAux (!ehCaractereDePalavra c) ts

def buscarData (l : List Char) : Option (Nat × Nat × Nat) :=
  buscarDataAux true l

/-- The claim's reading WITHOUT the `\b` boundaries: "the first
`\d{1,2}/\d{1,2}/\d{4}` pattern in the trimmed input". -/
def tentarDataFormatoSemFronteira (nd nm : Nat) (l : List Char) : Option (Nat × Nat × Nat) :=
  match pegarDigitos nd l with
  | none => none
  | some (dia, r1) =>
    match r1 with
    | '/' :: r2 =>
      match pegarDigitos nm r2 with
      | none => none
      | some (mes, r3) =>
        match r3 with
        | '/' :: r4 =>
          match pegarDigitos 4 r4 with
          | none => none
          | some (ano, _) => some (dia, mes, ano)
        | _ => none
    | _ => none

def tentarDataSemFronteira (l : List Char) : Option (Nat × Nat × Nat) :=
  match tentarDataFormatoSemFronteira 2 2 l with
  | some r => some r
  | none =>
    match tentarDataFormatoSemFronteira 2 1 l with
    | some r => some r
    | none =>
      match tentarDataFormatoSemFronteira 1 2 l with
      | some r => some r
      | none => tentarDataFormatoSemFronteira 1 1 l

def buscarDataSemFronteira : List Char → Option (Nat × Nat × Nat)
  | [] => none
  | c :: ts =>
    match tentarDataSemFronteira (c :: ts) with
    | some r => some r
    | none => buscarDataSemFronteira ts

/-! ## `ReferenciaMensal` (core/shared/value_objects/normalizar_referencia.py) -/

/-- Models `re.sub(r"\s*\(atual\)\s*$", "", texto, flags=IGNORECASE)` applied to
an already-stripped text: when the lowercased text ends with `"(atual)"`,
that suffix and the whitespace run before it are removed. -/
def removerSufixoAtual (l : List Char) : List Char :=
  if prefixoLista "(atual)".toList.reverse ((l.map Char.toLower).reverse) then
    ((l.take (l.length - 7)).reverse.dropWhile ehEspaco).reverse
  else l

/-- Value object for a monthly reference `MM/YYYY` (validated fields). -/
structure ReferenciaMensal where
  referencia : String
  mes : Nat
  ano : Nat
deriving DecidableEq, Repr

/-- Models `ReferenciaMensal.__post_init__`: strip, drop an optional trailing
`(Atual)` suffix, search `\b(\d{2})/(\d{4})\b`, validate the month and
normalize the text to `f"{mes:02d}/{ano}"`.  `none` models the raised
`ValueError`. -/
def referenciaMensal (texto : String) : Option ReferenciaMensal :=
  let t := removerSufixoAtual (stripLista texto.toList)
  match buscarMMYYYY t with
  | none => none
  | some (_, mes, ano) =>
    if 1 ≤ mes && mes ≤ 12 then
      some ⟨pad2 mes ++ "/" ++ toString ano, mes, ano⟩
    else none

/-- The claim's reading of `ReferenciaMensal`: identical pipeline but the
`MM/YYYY` search has no word boundaries ("takes the first `\d{2}/\d{4}`
match anywhere in the remaining text").  Used only for refutation. -/
def referenciaMensalSemFronteira (texto : String) : Option ReferenciaMensal :=
  let t := removerSufixoAtual (stripLista texto.toList)
  match buscarMMYYYYSemFronteira t with
  | none => none
  | some (_, mes, ano) =>
    if 1 ≤ mes && mes ≤ 12 then
      some ⟨pad2 mes ++ "/" ++ toString ano, mes, ano⟩
    else none

/-! ## `NormalizarData` (core/shared/value_objects/normalizar_data.py) -/

/-- Gregorian leap year, as implemented by `datetime.date`. -/
def anoBissexto (ano : Nat) : Bool :=
  ano % 4 == 0 && (ano % 100 != 0 || ano % 400 == 0)

/-- Days in a month of the proleptic Gregorian calendar. -/
def diasNoMes (ano mes : Nat) : Nat :=
  if mes == 2 then (if anoBissexto ano then 29 else 28)
  else if mes == 4 || mes == 6 || mes == 9 || mes == 11 then 30
  else 31

/-- Models `datetime.date(ano, mes, dia)` succeeds exactly on these triples
(`MINYEAR = 1`, `MAXYEAR = 9999`). -/
def dataValida (ano mes dia : Nat) : Bool :=
  1 ≤ ano && ano ≤ 9999 && 1 ≤ mes && mes ≤ 12 && 1 ≤ dia && dia ≤ diasNoMes ano mes

/-- Value object for a `DD/MM/YYYY` calendar date (validated fields). -/
structure NormalizarData where
  data : String
  dia : Nat
  mes : Nat
  ano : Nat
  dataIso : String
deriving DecidableEq, Repr

/-- Models `NormalizarData.__post_init__`: strip, search
`\b(\d{1,2})/(\d{1,2})/(\d{4})\b`, validate through `datetime.date`,
normalize to `f"{dia:02d}/{mes:02d}/{ano}"` and ISO `YYYY-MM-DD`. -/
def normalizarData (texto : String) : Option NormalizarData :=
  match buscarData (stripLista texto.toList) with
  | none => none
  | some (dia, mes, ano) =>
    if dataValida ano mes dia then
      some ⟨pad2 dia ++ "/" ++ pad2 mes ++ "/" ++ toString ano, dia, mes, ano,
        pad4 ano ++ "-" ++ pad2 mes ++ "-" ++ pad2 dia⟩
    else none

/-- The claim's reading: the same pipeline but the date search has no
word boundaries.  Used only for refutation. -/
def normalizarDataSemFronteira (texto : String) : Option NormalizarData :=
  match buscarDataSemFronteira (stripLista texto.toList) with
  | none => none
  | some (dia, mes, ano) =>
    if dataValida ano mes dia then
      some ⟨pad2 dia ++ "/" ++ pad2 mes ++ "/" ++ toString ano, dia, mes, ano,
        pad4 ano ++ "-" ++ pad2 mes ++ "-" ++ pad2 dia⟩
    else none

/-! ## `ValorMonetario` (core/shared/value_objects/normalizar_valor.py) -/

/-- A finite `decimal.Decimal` literal: value `mantissa * 10 ^ expoente`. -/
structure DecimalLit where
  mantissa : Int
  expoente : Int
deriving DecidableEq, Repr

/-- Rounds `a / b` (with `b > 0`) to the nearest integer, ties to even
(`ROUND_HALF_EVEN`, the default decimal context rounding). -/
def arredondarMeioParDiv (a b : Int) : Int :=
  let q := Int.fdiv a b
  let r := a - q * b
  if 2 * r < b then q
  else if b < 2 * r then q + 1
  else if q % 2 == 0 then q else q + 1

/-- Models `Decimal.quantize(Decimal("0.01"))` (half-even), expressed as the
integer number of centavos of the rounded value. -/
def quantizarCentavos (d : DecimalLit) : Int :=
  let e2 := d.expoente + 2
  if 0 ≤ e2 then d.mantissa * 10 ^ e2.toNat
  else arredondarMeioParDiv d.mantissa (10 ^ (-e2).toNat)

/-- Immutable monetary value, always quantized to 2 decimal places
(`__post_init__`); represented by its exact number of centavos. -/
structure ValorMonetario where
  valorCentavos : Int
deriving DecidableEq, Repr

/-- Constructing `ValorMonetario(valor)` quantizes to 2 decimals. -/
def ValorMonetario.deDecimal (d : DecimalLit) : ValorMonetario :=
  ⟨quantizarCentavos d⟩

/-- Models `to_centavos`: `(valor * 100).quantize(1, ROUND_HALF_EVEN)`.  The
stored value is an exact 2-decimal quantity `c / 100`, so the
multiplication and quantization are exact and yield `c`. -/
def ValorMonetario.toCentavos (v : ValorMonetario) : Int :=
  v.valorCentavos

/-- Models `from_centavos`: `Decimal(int(centavos)) / Decimal(100)` (exact, the
quotient `n * 10⁻²` is representable), then quantized to 2 decimals. -/
def valorMonetarioFromCentavos (n : Int) : ValorMonetario :=
  ValorMonetario.deDecimal ⟨n, -2⟩

/-- Models `re.sub(r"\s|R\$", "", texto)`: a single left-to-right pass deleting
each whitespace character and each two-character `R$` occurrence. -/
def limparTextoValor : List Char → List Char
  | [] => []
  | 'R' :: '$' :: resto => limparTextoValor resto
  | c :: resto =>
    if ehEspaco c then limparTextoValor resto else c :: limparTextoValor resto

/-- The separator normalization of `from_bruto` for string input:
both `,` and `.` present → `.` is the thousands separator (deleted) and
`,` the decimal separator; only `,` present → `,` is the decimal
separator; otherwise the text is kept as is. -/
def normalizarSeparadores (l : List Char) : List Char :=
  if l.contains ',' && l.contains '.' then
    (l.filter (fun c => c != '.')).map (fun c => if c == ',' then '.' else c)
  else if l.contains ',' then
    l.map (fun c => if c == ',' then '.' else c)
  else l

/-- Parses a finite `decimal.Decimal` literal:
`[sign] (digits [. digits*] | . digits+) [(e|E) [sign] digits+]`. -/
def analisarDecimal (l : List Char) : Option DecimalLit :=
  let (sinal, l1) :=
    match l with
    | '+' :: r => ((1 : Int), r)
    | '-' :: r => ((-1 : Int), r)
    | r => ((1 : Int), r)
  let inteiros := l1.takeWhile Char.isDigit
  let aposInteiros := l1.dropWhile Char.isDigit
  let (fracao, aposFracao) :=
    match aposInteiros with
    | '.' :: r => (r.takeWhile Char.isDigit, r.dropWhile Char.isDigit)
    | r => ([], r)
  if inteiros.isEmpty && fracao.isEmpty then none
  else
    let mantissaNat := (inteiros ++ fracao).foldl (fun acc c => 10 * acc + valorDigito c) 0
    let expoenteBase : Int := -(fracao.length : Int)
    match aposFracao with
    | [] => some ⟨sinal * mantissaNat, expoenteBase⟩
    | 'e' :: r | 'E' :: r =>
      let (sinalExp, r1) :=
        match r with
        | '+' :: r2 => ((1 : Int), r2)
        | '-' :: r2 => ((-1 : Int), r2)
        | r2 => ((1 : Int), r2)
      let digitosExp := r1.takeWhile Char.isDigit
      if digitosExp.isEmpty || !(r1.dropWhile Char.isDigit).isEmpty then none
      else
        let e := digitosExp.foldl (fun acc c => 10 * acc + valorDigito c) 0
        some ⟨sinal * mantissaNat, expoenteBase + sinalExp * e⟩
    | _ => none

/-- The dynamically-typed argument of `ValorMonetario.from_bruto`
(`float` input is delegated to `Decimal(str(float))` and is not modelled;
`naoSuportado` stands for any other type, which the code rejects). -/
inductive ValorBruto where
  | texto (s : String)
  | inteiro (n : Int)
  | decimal (d : DecimalLit)
  | naoSuportado
deriving DecidableEq, Repr

/-- Models `ValorMonetario.from_bruto`. -/
def valorMonetarioFromBruto : ValorBruto → Option ValorMonetario
  | .texto s =>
    let limpo := limparTextoValor (stripLista s.toList)
    match analisarDecimal (normalizarSeparadores limpo) with
    | some d => some (ValorMonetario.deDecimal d)
    | none => none
  | .inteiro n => some (ValorMonetario.deDecimal ⟨n, 0⟩)
  | .decimal d => some (ValorMonetario.deDecimal d)
  | .naoSuportado => none

/-! ## Entities (core/entities) -/

/-- Models `ContaLuz` (core/entities/expenses/conta_luz.py): reference held as a
free-form string, monetary value in centavos.  The sync service receives
already-built entities from `extrair_contas_luz`, so the reference field
is unconstrained here. -/
structure ContaLuz where
  referencia : String
  valorCentavos : Int
deriving DecidableEq, Repr

/-- Models `ContaAgua` (core/entities/conta_agua.py): the reference is stored as
`date(ano, mes, 1)`; we keep the month/year pair of that date. -/
structure ContaAgua where
  mes : Nat
  ano : Nat
  valorCentavos : Int
deriving DecidableEq, Repr

/-- The `ContaAgua.referencia` property: `f"{month:02d}/{year}"` rendered
from the stored first-of-month date. -/
def ContaAgua.referencia (c : ContaAgua) : String :=
  pad2 c.mes ++ "/" ++ toString c.ano

/-- Models `ContaAgua.criar(mes_referencia, valor)` for string inputs (the only
inputs the sync service passes): normalizes the reference through
`MesReferencia.criar_de_texto` (the `ReferenciaMensal` validator) and
converts it with `para_banco() = date(ano, mes, 1)` (which requires
`ano ≥ 1`), and the amount through `Valor.criar_de_bruto`. -/
def contaAguaCriar (mesReferencia valor : String) : Option ContaAgua :=
  match referenciaMensal mesReferencia with
  | none => none
  | some ref =>
    if 1 ≤ ref.ano then
      match valorMonetarioFromBruto (.texto valor) with
      | none => none
      | some v => some ⟨ref.mes, ref.ano, v.valorCentavos⟩
    else none

/-! ## Table locator (core/dataframe/dataframe_wrapper.py) -/

/-- A raw extracted table: a list of rows, each row a list of cell texts
(the `astype(str)` view of the `DataFrame` rows). -/
abbrev Linha := List String
abbrev Tabela := List Linha

/-- Whether one row satisfies the keyword condition of
`localizar_tabela_com_palavras_chave`: the cells are joined with spaces,
optionally normalized, and tested for all/any of the (already processed)
keywords as substrings. -/
def linhaSatisfazChaves (chavesProcessadas : List String) (normalizar exigirTodas : Bool)
    (linha : Linha) : Bool :=
  let txt := textoLinha linha
  let txt := if normalizar then semAcentosMinusculo txt else txt
  if exigirTodas then chavesProcessadas.all (fun p => contemTexto txt p)
  else chavesProcessadas.any (fun p => contemTexto txt p)

/-- The outer loop over tables: the inner `for linha ... return tabela`
is the existence of a satisfying row. -/
def percorrerTabelas (chavesProcessadas : List String) (normalizar exigirTodas : Bool) :
    List Tabela → Option Tabela
  | [] => none
  | t :: ts =>
    if t.any (linhaSatisfazChaves chavesProcessadas normalizar exigirTodas) then some t
    else percorrerTabelas chavesProcessadas normalizar exigirTodas ts

/-- Models `DataFrameWrapper.localizar_tabela_com_palavras_chave(tabelas,
palavras_chave, normalizar=..., exigir_todas=...)`. -/
def localizarTabelaComPalavrasChave (tabelas : List Tabela) (palavrasChave : List String)
    (normalizar exigirTodas : Bool) : Option Tabela :=
  let lista := if normalizar then palavrasChave.map semAcentosMinusculo else palavrasChave
  percorrerTabelas lista normalizar exigirTodas tabelas

/-- The keyword set of `ParametrosExtracao` for CELESC invoices. -/
def palavrasChaveCelesc : List String := ["Data", "Documento", "Número", "Referência"]

/-- Models `CelescExtrator._extrair`'s location step: the wrapper locator with
the CELESC keywords, `normalizar=True`, `exigir_todas=True`. -/
def localizarTabelaCelesc (tabelas : List Tabela) : Option Tabela :=
  localizarTabelaComPalavrasChave tabelas palavrasChaveCelesc true true

/-! ## CELESC header detection (core/celesc/celesc_extrator.py and
core/dataframe-wrapper/celesc_extrator.py, identical logic) -/

/-- The normalized header terms scanned for. -/
def termosCabecalho : List String := ["data", "documento", "numero", "referencia"]

/-- Whether a row's normalized joined text contains all header terms. -/
def linhaEhCabecalho (linha : Linha) : Bool :=
  termosCabecalho.all (fun t => contemTexto (semAcentosMinusculo (textoLinha linha)) t)

/-- The scanning loop of `detectar_indices_cabecalho_e_dados`: on the
first matching row at index `i`, returns `(i, i+1)` only when `i + 1 <
total`; a match on the last row `break`s to the fallback. -/
def detectarIndicesAux (total : Nat) : Nat → List Linha → Nat × Nat
  | _, [] => (4, 5)
  | i, linha :: resto =>
    if linhaEhCabecalho linha then
      (if i + 1 < total then (i, i + 1) else (4, 5))
    else detectarIndicesAux total (i + 1) resto

/-- Models `detectar_indices_cabecalho_e_dados(df, fallback=(4, 5))`. -/
def detectarIndicesCabecalhoEDados (linhas : List Linha) : Nat × Nat :=
  detectarIndicesAux linhas.length 0 linhas

/-- The claim's reading of the detection: "if such a row is found at
index `i`, the result is `(i, i+1)`; otherwise the fixed default
`(4, 5)`" — with no condition on `i` being followed by a data row.
Used only for refutation. -/
def detectarIndicesSegundoClaim (linhas : List Linha) : Nat × Nat :=
  match linhas.findIdx? linhaEhCabecalho with
  | some i => (i, i + 1)
  | none => (4, 5)

/-! ## SAMAE current-row selection (core/dataframe/samae_extrator.py) -/

/-- The first cell of a row (`df[df.columns[0]]`, `astype(str)`). -/
def primeiraCelula (linha : Linha) : String := linha.headD ""

/-- The `(Atual)` mask: the normalized first-column text contains the
literal `"(atual)"` (`str.contains(r"\(atual\)")`). -/
def linhaMarcadaAtual (linha : Linha) : Bool :=
  contemTexto (semAcentosMinusculo (primeiraCelula linha)) "(atual)"

/-- Models `_extrair_mm_yyyy` composed with `_yyyy_mm_int`: the sortable
`YYYY*100+MM` integer of the first `\b\d{2}/\d{4}\b` match of the first
cell, if any. -/
def ordemYyyymm (linha : Linha) : Option Nat :=
  (buscarMMYYYY (primeiraCelula linha).toList).map (fun r => r.2.2 * 100 + r.2.1)

/-- Models `ordem_yyyymm.idxmax()` over the rows, skipping rows without a
parseable reference; ties keep the earliest row (pandas `idxmax`). -/
def passoMaximo (melhor : Option (Linha × Nat)) (linha : Linha) : Option (Linha × Nat) :=
  match ordemYyyymm linha with
  | none => melhor
  | some v =>
    match melhor with
    | none => some (linha, v)
    | some (_, vm) => if vm < v then some (linha, v) else melhor

def primeiraLinhaMaxima (linhas : List Linha) : Option (Linha × Nat) :=
  linhas.foldl passoMaximo none

/-- Models `SamaeExtrator._selecionar_linha_atual`: the first `(Atual)`-marked
row if any, else the row with the greatest `YYYY*100+MM`; `none` models
the raised `ValueError` when no row has a parseable reference. -/
def selecionarLinhaAtual (linhas : List Linha) : Option Linha :=
  match linhas.find? linhaMarcadaAtual with
  | some linha => some linha
  | none => (primeiraLinhaMaxima linhas).map Prod.fst

/-- Models `SamaeExtrator._extrair_referencia`: first `\b\d{2}/\d{4}\b` match of
the selected row's first cell, suffixed with `" (Atual)"`. -/
def extrairReferenciaSamae (linha : Linha) : Option String :=
  (buscarMMYYYY (primeiraCelula linha).toList).map (fun r => r.1 ++ " (Atual)")

/-- The `Referência` field of the single output row of the extractor. -/
def referenciaAtualSamae (linhas : List Linha) : Option String :=
  (selecionarLinhaAtual linhas).bind extrairReferenciaSamae

/-! ## Sync services (application/conta_luz/handlers.py and
application/conta_agua/handlers.py)

The PDF extraction boundary (`extrair_contas_luz` /
`obter_tabela_samae`+dataframe access) is an injected fallible function:
`.error` stands for any of the caught exceptions (`RuntimeError`,
`ValueError`, `FileNotFoundError`, `OSError`).  The repository is
injected as the count returned by `add_many`. -/

/-- An insertion-ordered dictionary (`dict[str, ...]`): updating an
existing key replaces its value in place, a new key is appended. -/
def inserirNoMapa {α : Type} : List (String × α) → String → α → List (String × α)
  | [], chave, v => [(chave, v)]
  | (k, w) :: resto, chave, v =>
    if k = chave then (k, v) :: resto
    else (k, w) :: inserirNoMapa resto chave v

/-- The loop state of `sync_from_pdfs`: `referencias_coletadas`,
`total_linhas_extraidas`, `arquivos_com_falha`. -/
structure EstadoSync (α : Type) where
  mapa : List (String × α)
  linhas : Nat
  falhas : List String
deriving Repr

/-- The per-path loop of `ContaLuzSyncService.sync_from_pdfs`. -/
def lacoLuz (extrair : String → Except Unit (List ContaLuz)) :
    List String → EstadoSync ContaLuz → EstadoSync ContaLuz
  | [], e => e
  | p :: ps, e =>
    match extrair p with
    | .error _ => lacoLuz extrair ps { e with falhas := e.falhas ++ [p] }
    | .ok contas =>
      lacoLuz extrair ps
        { mapa := contas.foldl (fun m c => inserirNoMapa m c.referencia c) e.mapa,
          linhas := e.linhas + contas.length,
          falhas := e.falhas }

/-- The per-path loop of `ContaAguaSyncService.sync_from_pdfs`: the
extraction boundary yields the raw `Referência` and `Valor (R$)` texts of
the single extracted row; `ContaAgua.criar` runs inside the same `try`. -/
def lacoAgua (extrair : String → Except Unit (String × String)) :
    List String → EstadoSync ContaAgua → EstadoSync ContaAgua
  | [], e => e
  | p :: ps, e =>
    match extrair p with
    | .error _ => lacoAgua extrair ps { e with falhas := e.falhas ++ [p] }
    | .ok (refTexto, valTexto) =>
      match contaAguaCriar refTexto valTexto with
      | none => lacoAgua extrair ps { e with falhas := e.falhas ++ [p] }
      | some conta =>
        lacoAgua extrair ps
          { mapa := inserirNoMapa e.mapa conta.referencia conta,
            linhas := e.linhas + 1,
            falhas := e.falhas }

/-- Models `[ref for ref in referencias_coletadas if ref not in
referencias_existentes]` (dict iteration is key-insertion order). -/
def novasReferencias {α : Type} (mapa : List (String × α)) (existentes : List String) :
    List String :=
  (mapa.map Prod.fst).filter (fun r => !existentes.contains r)

/-- Models `[referencias_coletadas[ref] for ref in referencias_novas]`. -/
def contasParaInserir {α : Type} (mapa : List (String × α)) (existentes : List String) :
    List α :=
  (novasReferencias mapa existentes).filterMap (fun r => mapa.lookup r)

/-- The returned `resumo` dictionary. -/
structure ResumoSync where
  pdfCount : Nat
  filesProcessed : Nat
  filesFailed : Nat
  failedFiles : List String
  rowsParsed : Nat
  distinctReferencesFound : Nat
  created : Nat
  skipped : Int
  createdReferences : List String
deriving Repr

/-- Builds the summary from the final loop state (identical in both
services): diff against the known references, insert, and report. -/
def montarResumo {α : Type} (e : EstadoSync α) (paths existentes : List String)
    (addMany : List α → Nat) : ResumoSync :=
  let novas := novasReferencias e.mapa existentes
  let paraInserir := contasParaInserir e.mapa existentes
  let inseridos := if paraInserir.isEmpty then 0 else addMany paraInserir
  { pdfCount := paths.length,
    filesProcessed := paths.length - e.falhas.length,
    filesFailed := e.falhas.length,
    failedFiles := e.falhas,
    rowsParsed := e.linhas,
    distinctReferencesFound := e.mapa.length,
    created := inseridos,
    skipped := (e.mapa.length : Int) - (inseridos : Int),
    createdReferences := novas }

/-- Models `ContaLuzSyncService.sync_from_pdfs`. -/
def syncFromPdfsLuz (extrair : String → Except Unit (List ContaLuz))
    (addMany : List ContaLuz → Nat) (existentes : List String) (paths : List String) :
    ResumoSync :=
  montarResumo (lacoLuz extrair paths ⟨[], 0, []⟩) paths existentes addMany

/-- Models `ContaAguaSyncService.sync_from_pdfs`. -/
def syncFromPdfsAgua (extrair : String → Except Unit (String × String))
    (addMany : List ContaAgua → Nat) (existentes : List String) (paths : List String) :
    ResumoSync :=
  montarResumo (lacoAgua extrair paths ⟨[], 0, []⟩) paths existentes addMany

/-! ### Reference (spec-side) descriptions of the batch processing -/

/-- Whether extraction fails for a given path (Electric service). -/
def falhaLuz (extrair : String → Except Unit (List ContaLuz)) (p : String) : Bool :=
  match extrair p with
  | .error _ => true
  | .ok _ => false

/-- All rows successfully extracted from the batch, in input path order
(rows of a failing path contribute nothing). -/
def linhasExtraidasLuz (extrair : String → Except Unit (List ContaLuz))
    (paths : List String) : List ContaLuz :=
  paths.flatMap (fun p =>
    match extrair p with
    | .ok contas => contas
    | .error _ => [])

/-- The entity built from a successfully extracted Water row, if both the
extraction and `ContaAgua.criar` succeed. -/
def contaExtraidaAgua (extrair : String → Except Unit (String × String)) (p : String) :
    Option ContaAgua :=
  match extrair p with
  | .ok (refTexto, valTexto) => contaAguaCriar refTexto valTexto
  | .error _ => none

/-- Whether the path counts as failed for the Water service (extraction
error or `ContaAgua.criar` error). -/
def falhaAgua (extrair : String → Except Unit (String × String)) (p : String) : Bool :=
  (contaExtraidaAgua extrair p).isNone

/-- All successfully built Water entities of the batch, in path order. -/
def contasExtraidasAgua (extrair : String → Except Unit (String × String))
    (paths : List String) : List ContaAgua :=
  paths.filterMap (contaExtraidaAgua extrair)

/-- Collecting a row list into the reference-keyed dictionary. -/
def coletarPorReferencia {α : Type} (chaveDe : α → String) (contas : List α) :
    List (String × α) :=
  contas.foldl (fun m c => inserirNoMapa m (chaveDe c) c) []

/-- First-occurrence deduplication (the key order of a Python dict built
by repeated assignment). -/
def dedupPrimeira : List String → List String
  | [] => []
  | x :: xs => x :: dedupPrimeira (xs.filter (fun y => y ≠ x))
termination_by l => l.length
decreasing_by
  simp only [List.length_cons]
  exact Nat.lt_succ_of_le (List.length_filter_le _ _)

/-! ## Concrete batch used as executable test data: two documents
extract successfully, one is corrupt -/

def exemploExtrairLuz : String → Except Unit (List ContaLuz) := fun p =>
  if p = "ruim.pdf" then .error ()
  else if p = "bom1.pdf" then .ok [⟨"09/2025", 12345⟩]
  else .ok [⟨"08/2025", 10000⟩]

def exemploExtrairAgua : String → Except Unit (String × String) := fun p =>
  if p = "ruim.pdf" then .error ()
  else if p = "bom1.pdf" then .ok ("09/2025 (Atual)", "42,20")
  else .ok ("08/2025", "39,10")

def exemploLote : List String := ["bom1.pdf", "ruim.pdf", "bom2.pdf"]

/-! ## Helper lemmas: insertion-ordered dictionaries -/

/-- The last element of the list whose key equals `k` ("the last one
processed wins"). -/
def ultimaOcorrencia {α : Type} (chaveDe : α → String) (k : String) : List α → Option α
  | [] => none
  | c :: resto =>
    match ultimaOcorrencia chaveDe k resto with
    | some d => some d
    | none => if chaveDe c = k then some c else none

theorem chaves_inserirNoMapa {α : Type} (m : List (String × α)) (k : String) (v : α) :
    (inserirNoMapa m k v).map Prod.fst =
      if k ∈ m.map Prod.fst then m.map Prod.fst else m.map Prod.fst ++ [k] := by
  induction m with
  | nil => simp [inserirNoMapa]
  | cons par resto ih =>
    obtain ⟨k', w⟩ := par
    by_cases hk : k' = k
    · subst hk
      simp [inserirNoMapa]
    · simp only [inserirNoMapa, if_neg hk, List.map_cons, ih, List.mem_cons]
      by_cases hm : k ∈ resto.map Prod.fst
      · simp [hm, Ne.symm hk]
      · simp [hm, Ne.symm hk]

theorem lookup_inserirNoMapa_self {α : Type} (m : List (String × α)) (k : String) (v : α) :
    (inserirNoMapa m k v).lookup k = some v := by
  induction m with
  | nil => simp [inserirNoMapa, List.lookup]
  | cons par resto ih =>
    obtain ⟨k', w⟩ := par
    by_cases hk : k' = k
    · subst hk
      simp [inserirNoMapa, List.lookup]
    · simp only [inserirNoMapa, if_neg hk, List.lookup]
      have : (k == k') = false := by
        simp [beq_iff_eq]
        exact fun h => hk h.symm
      simp [this, ih]

theorem lookup_inserirNoMapa_outro {α : Type} (m : List (String × α)) (k k' : String) (v : α)
    (h : k' ≠ k) : (inserirNoMapa m k v).lookup k' = m.lookup k' := by
  induction m with
  | nil =>
    have hne : (k' == k) = false := by simp [beq_iff_eq, h]
    simp [inserirNoMapa, List.lookup, hne]
  | cons par resto ih =>
    obtain ⟨k0, w⟩ := par
    by_cases hk : k0 = k
    · subst hk
      have hne : (k' == k0) = false := by simp [beq_iff_eq, h]
      simp [inserirNoMapa, List.lookup, hne]
    · simp only [inserirNoMapa, if_neg hk, List.lookup]
      by_cases he : k' = k0
      · simp [he]
      · have hne : (k' == k0) = false := by simp [beq_iff_eq, he]
        simp [hne, ih]

theorem mem_inserirNoMapa {α : Type} (m : List (String × α)) (k : String) (v : α)
    (par : String × α) (h : par ∈ inserirNoMapa m k v) : par ∈ m ∨ par = (k, v) := by
  induction m with
  | nil =>
    simp [inserirNoMapa] at h
    exact Or.inr h
  | cons cab resto ih =>
    obtain ⟨k0, w⟩ := cab
    by_cases hk : k0 = k
    · rw [show inserirNoMapa ((k0, w) :: resto) k v = (k0, v) :: resto from by
        simp [inserirNoMapa, hk]] at h
      rcases List.mem_cons.mp h with h1 | h1
      · exact Or.inr (by rw [h1, hk])
      · exact Or.inl (List.mem_cons_of_mem _ h1)
    · rw [show inserirNoMapa ((k0, w) :: resto) k v = (k0, w) :: inserirNoMapa resto k v from by
        simp [inserirNoMapa, hk]] at h
      rcases List.mem_cons.mp h with h1 | h1
      · exact Or.inl (by rw [h1]; exact List.mem_cons_self _ _)
      · rcases ih h1 with h2 | h2
        · exact Or.inl (List.mem_cons_of_mem _ h2)
        · exact Or.inr h2

theorem dedupPrimeira_cons (x : String) (xs : List String) :
    dedupPrimeira (x :: xs) = x :: dedupPrimeira (xs.filter (fun y => y ≠ x)) := by
  rw [dedupPrimeira]

theorem chaves_fold_inserir {α : Type} (chaveDe : α → String) :
    ∀ (contas : List α) (m : List (String × α)),
      (contas.foldl (fun m c => inserirNoMapa m (chaveDe c) c) m).map Prod.fst =
        m.map Prod.fst ++
          dedupPrimeira ((contas.map chaveDe).filter (fun r => r ∉ m.map Prod.fst)) := by
  intro contas
  induction contas with
  | nil => intro m; simp [dedupPrimeira]
  | cons c resto ih =>
    intro m
    simp only [List.foldl_cons]
    rw [ih]
    by_cases hm : chaveDe c ∈ m.map Prod.fst
    · have hchaves : (inserirNoMapa m (chaveDe c) c).map Prod.fst = m.map Prod.fst := by
        rw [chaves_inserirNoMapa, if_pos hm]
      have hdec : (decide (chaveDe c ∉ m.map Prod.fst)) = false := by simp [hm]
      rw [hchaves, List.map_cons, List.filter_cons]
      simp only [hdec, Bool.false_eq_true, if_false]
    · have hchaves :
          (inserirNoMapa m (chaveDe c) c).map Prod.fst = m.map Prod.fst ++ [chaveDe c] := by
        rw [chaves_inserirNoMapa, if_neg hm]
      have hdec : (decide (chaveDe c ∉ m.map Prod.fst)) = true := by simp [hm]
      rw [hchaves, List.map_cons, List.filter_cons]
      simp only [hdec, if_true]
      rw [List.append_assoc, List.singleton_append, dedupPrimeira_cons]
      congr 2
      rw [List.filter_filter]
      congr 1
      apply List.filter_congr
      intro x _
      by_cases h1 : x = chaveDe c
      · simp [h1]
      · by_cases h2 : x ∈ m.map Prod.fst <;> simp [h1, h2]

theorem lookup_fold_inserir {α : Type} (chaveDe : α → String) :
    ∀ (contas : List α) (m : List (String × α)) (k : String),
      (contas.foldl (fun m c => inserirNoMapa m (chaveDe c) c) m).lookup k =
        match ultimaOcorrencia chaveDe k contas with
        | some d => some d
        | none => m.lookup k := by
  intro contas
  induction contas with
  | nil => intro m k; simp [ultimaOcorrencia]
  | cons c resto ih =>
    intro m k
    simp only [List.foldl_cons]
    rw [ih]
    cases hult : ultimaOcorrencia chaveDe k resto with
    | some d => simp [ultimaOcorrencia, hult]
    | none =>
      simp only [ultimaOcorrencia, hult]
      by_cases hk : chaveDe c = k
      · subst hk
        simp [lookup_inserirNoMapa_self]
      · have hne : k ≠ chaveDe c := fun h => hk h.symm
        simp [hk, lookup_inserirNoMapa_outro _ _ _ _ hne]

/-! ## Helper lemmas: the per-path loops -/

theorem lacoLuz_eq (extrair : String → Except Unit (List ContaLuz)) :
    ∀ (paths : List String) (e : EstadoSync ContaLuz),
      lacoLuz extrair paths e =
        ⟨(linhasExtraidasLuz extrair paths).foldl
            (fun m c => inserirNoMapa m c.referencia c) e.mapa,
          e.linhas + (linhasExtraidasLuz extrair paths).length,
          e.falhas ++ paths.filter (falhaLuz extrair)⟩ := by
  intro paths
  induction paths with
  | nil => intro e; simp [lacoLuz, linhasExtraidasLuz]
  | cons p ps ih =>
    intro e
    cases hx : extrair p with
    | error u =>
      have hfalha : falhaLuz extrair p = true := by simp [falhaLuz, hx]
      simp only [lacoLuz, hx]
      rw [ih]
      simp [linhasExtraidasLuz, hx, List.filter_cons, hfalha]
    | ok contas =>
      have hfalha : falhaLuz extrair p = false := by simp [falhaLuz, hx]
      simp only [lacoLuz, hx]
      rw [ih]
      simp only [linhasExtraidasLuz, List.flatMap_cons, hx, List.foldl_append,
        List.length_append, List.filter_cons, hfalha, Bool.false_eq_true, if_false,
        EstadoSync.mk.injEq]
      exact ⟨trivial, by omega, trivial⟩

theorem lacoAgua_eq (extrair : String → Except Unit (String × String)) :
    ∀ (paths : List String) (e : EstadoSync ContaAgua),
      lacoAgua extrair paths e =
        ⟨(contasExtraidasAgua extrair paths).foldl
            (fun m c => inserirNoMapa m c.referencia c) e.mapa,
          e.linhas + (contasExtraidasAgua extrair paths).length,
          e.falhas ++ paths.filter (falhaAgua extrair)⟩ := by
  intro paths
  induction paths with
  | nil => intro e; simp [lacoAgua, contasExtraidasAgua]
  | cons p ps ih =>
    intro e
    cases hx : extrair p with
    | error u =>
      have hex : contaExtraidaAgua extrair p = none := by simp [contaExtraidaAgua, hx]
      have hfalha : falhaAgua extrair p = true := by simp [falhaAgua, hex]
      simp only [lacoAgua, hx]
      rw [ih]
      simp [contasExtraidasAgua, List.filterMap_cons, hex, List.filter_cons, hfalha]
    | ok par =>
      obtain ⟨refTexto, valTexto⟩ := par
      cases hc : contaAguaCriar refTexto valTexto with
      | none =>
        have hex : contaExtraidaAgua extrair p = none := by
          simp [contaExtraidaAgua, hx, hc]
        have hfalha : falhaAgua extrair p = true := by simp [falhaAgua, hex]
        simp only [lacoAgua, hx, hc]
        rw [ih]
        simp [contasExtraidasAgua, List.filterMap_cons, hex, List.filter_cons, hfalha]
      | some conta =>
        have hex : contaExtraidaAgua extrair p = some conta := by
          simp [contaExtraidaAgua, hx, hc]
        have hfalha : falhaAgua extrair p = false := by simp [falhaAgua, hex]
        simp only [lacoAgua, hx, hc]
        rw [ih]
        simp only [contasExtraidasAgua, List.filterMap_cons, hex, List.foldl_cons,
          List.length_cons, List.filter_cons, hfalha, Bool.false_eq_true, if_false,
          EstadoSync.mk.injEq]
        exact ⟨trivial, by omega, trivial⟩

/-! ## Helper lemmas: SAMAE current-row selection -/

theorem passoMaximo_none (melhor : Option (Linha × Nat)) (linha : Linha)
    (h : ordemYyyymm linha = none) : passoMaximo melhor linha = melhor := by
  simp [passoMaximo, h]

theorem foldl_passoMaximo_none :
    ∀ (linhas : List Linha) (acc : Option (Linha × Nat)),
      linhas.foldl passoMaximo acc = none ↔
        (acc = none ∧ ∀ l ∈ linhas, ordemYyyymm l = none) := by
  intro linhas
  induction linhas with
  | nil => intro acc; simp
  | cons linha resto ih =>
    intro acc
    simp only [List.foldl_cons]
    rw [ih]
    cases hord : ordemYyyymm linha with
    | none =>
      rw [passoMaximo_none _ _ hord]
      constructor
      · rintro ⟨h1, h2⟩
        refine ⟨h1, ?_⟩
        intro l hl
        rcases List.mem_cons.mp hl with h | h
        · rw [h]; exact hord
        · exact h2 l h
      · rintro ⟨h1, h2⟩
        exact ⟨h1, fun l hl => h2 l (List.mem_cons_of_mem _ hl)⟩
    | some v =>
      have hsome : ∃ par, passoMaximo acc linha = some par := by
        cases acc with
        | none => exact ⟨(linha, v), by simp [passoMaximo, hord]⟩
        | some par0 =>
          obtain ⟨l0, v0⟩ := par0
          by_cases hv : v0 < v
          · exact ⟨(linha, v), by simp [passoMaximo, hord, hv]⟩
          · exact ⟨(l0, v0), by simp [passoMaximo, hord, hv]⟩
      obtain ⟨par, hpar⟩ := hsome
      rw [hpar]
      constructor
      · rintro ⟨h1, _⟩
        cases h1
      · rintro ⟨_, h2⟩
        have := h2 linha (List.mem_cons_self _ _)
        rw [hord] at this
        cases this

theorem passoMaximo_cases (acc : Option (Linha × Nat)) (linha : Linha) :
    passoMaximo acc linha = acc ∨
      ∃ w0, ordemYyyymm linha = some w0 ∧ passoMaximo acc linha = some (linha, w0) := by
  cases hord : ordemYyyymm linha with
  | none => exact Or.inl (passoMaximo_none _ _ hord)
  | some w0 =>
    cases acc with
    | none => exact Or.inr ⟨w0, rfl, by simp [passoMaximo, hord]⟩
    | some par =>
      obtain ⟨l0, v0⟩ := par
      by_cases hv : v0 < w0
      · exact Or.inr ⟨w0, rfl, by simp [passoMaximo, hord, hv]⟩
      · exact Or.inl (by simp [passoMaximo, hord, hv])

theorem passoMaximo_mono (acc : Option (Linha × Nat)) (linha : Linha) :
    ∀ l0 v0, acc = some (l0, v0) → ∀ l1 v1, passoMaximo acc linha = some (l1, v1) →
      v0 ≤ v1 := by
  intro l0 v0 h0 l1 v1 h1
  subst h0
  cases hord : ordemYyyymm linha with
  | none =>
    rw [passoMaximo_none _ _ hord] at h1
    simp only [Option.some.injEq, Prod.mk.injEq] at h1
    omega
  | some w0 =>
    by_cases hv : v0 < w0
    · simp only [passoMaximo, hord, if_pos hv] at h1
      simp only [Option.some.injEq, Prod.mk.injEq] at h1
      omega
    · simp only [passoMaximo, hord, if_neg hv] at h1
      simp only [Option.some.injEq, Prod.mk.injEq] at h1
      omega

theorem passoMaximo_ge (acc : Option (Linha × Nat)) (linha : Linha) :
    ∀ w0, ordemYyyymm linha = some w0 →
      ∃ l1 v1, passoMaximo acc linha = some (l1, v1) ∧ w0 ≤ v1 := by
  intro w0 hord
  cases acc with
  | none => exact ⟨linha, w0, by simp [passoMaximo, hord], le_refl _⟩
  | some par =>
    obtain ⟨l0, v0⟩ := par
    by_cases hv : v0 < w0
    · exact ⟨linha, w0, by simp [passoMaximo, hord, hv], le_refl _⟩
    · exact ⟨l0, v0, by simp [passoMaximo, hord, hv], by omega⟩

theorem foldl_passoMaximo_some :
    ∀ (linhas : List Linha) (acc : Option (Linha × Nat)) (l : Linha) (v : Nat),
      linhas.foldl passoMaximo acc = some (l, v) →
        (acc = some (l, v) ∨ (l ∈ linhas ∧ ordemYyyymm l = some v)) ∧
          (∀ l' ∈ linhas, ∀ w, ordemYyyymm l' = some w → w ≤ v) ∧
          (∀ l0 v0, acc = some (l0, v0) → v0 ≤ v) := by
  intro linhas
  induction linhas with
  | nil =>
    intro acc l v h
    simp only [List.foldl_nil] at h
    refine ⟨Or.inl h, by simp, ?_⟩
    intro l0 v0 h0
    rw [h0] at h
    simp only [Option.some.injEq, Prod.mk.injEq] at h
    omega
  | cons linha resto ih =>
    intro acc l v h
    simp only [List.foldl_cons] at h
    obtain ⟨h1, h2, h3⟩ := ih (passoMaximo acc linha) l v h
    refine ⟨?_, ?_, ?_⟩
    · rcases h1 with h1 | h1
      · rcases passoMaximo_cases acc linha with hp | hp
        · exact Or.inl (hp.symm.trans h1)
        · obtain ⟨w0, hw0, heq⟩ := hp
          rw [heq] at h1
          simp only [Option.some.injEq, Prod.mk.injEq] at h1
          rcases h1 with ⟨rfl, rfl⟩
          exact Or.inr ⟨List.mem_cons_self _ _, hw0⟩
      · exact Or.inr ⟨List.mem_cons_of_mem _ h1.1, h1.2⟩
    · intro l' hl' w hw
      rcases List.mem_cons.mp hl' with he | he
      · subst he
        obtain ⟨l1, v1, heq, hge⟩ := passoMaximo_ge acc l' w hw
        exact le_trans hge (h3 l1 v1 heq)
      · exact h2 l' he w hw
    · intro l0 v0 h0
      rcases passoMaximo_cases acc linha with hp | hp
      · exact h3 l0 v0 (hp.trans h0)
      · obtain ⟨w0, hw0, heq⟩ := hp
        exact le_trans (passoMaximo_mono acc linha l0 v0 h0 linha w0 heq) (h3 _ _ heq)

/-! ## Helper lemmas: table location and header detection -/

theorem percorrerTabelas_eq_find (chaves : List String) (normalizar exigirTodas : Bool) :
    ∀ (tabelas : List Tabela),
      percorrerTabelas chaves normalizar exigirTodas tabelas =
        tabelas.find? (fun t => t.any (linhaSatisfazChaves chaves normalizar exigirTodas)) := by
  intro tabelas
  induction tabelas with
  | nil => rfl
  | cons t ts ih =>
    by_cases h : t.any (linhaSatisfazChaves chaves normalizar exigirTodas) = true
    · rw [percorrerTabelas, if_pos h]
      exact (List.find?_cons_of_pos ts h).symm
    · rw [percorrerTabelas, if_neg h, ih]
      exact (List.find?_cons_of_neg ts h).symm

theorem find_primeiro {α : Type} (p : α → Bool) :
    ∀ (l : List α) (a : α), l.find? p = some a →
      ∃ antes depois, l = antes ++ a :: depois ∧ (∀ b ∈ antes, p b = false) ∧ p a = true := by
  intro l
  induction l with
  | nil => intro a h; cases h
  | cons c resto ih =>
    intro a h
    by_cases hc : p c = true
    · rw [List.find?_cons_of_pos resto hc] at h
      injection h with h
      subst h
      exact ⟨[], resto, rfl, by simp, hc⟩
    · rw [List.find?_cons_of_neg resto hc] at h
      obtain ⟨antes, depois, heq, hantes, ha⟩ := ih a h
      refine ⟨c :: antes, depois, by rw [heq, List.cons_append], ?_, ha⟩
      intro b hb
      rcases List.mem_cons.mp hb with hb | hb
      · subst hb
        cases hpc : p b
        · rfl
        · exact absurd hpc hc
      · exact hantes b hb

theorem detectarIndicesAux_eq (total : Nat) :
    ∀ (linhas : List Linha) (j : Nat),
      detectarIndicesAux total j linhas =
        match List.findIdx? linhaEhCabecalho linhas j with
        | some i => if i + 1 < total then (i, i + 1) else (4, 5)
        | none => (4, 5) := by
  intro linhas
  induction linhas with
  | nil => intro j; simp [detectarIndicesAux, List.findIdx?_nil]
  | cons linha resto ih =>
    intro j
    rw [detectarIndicesAux, List.findIdx?_cons]
    by_cases h : linhaEhCabecalho linha = true
    · simp [h]
    · have h' : linhaEhCabecalho linha = false := by
        cases hb : linhaEhCabecalho linha
        · rfl
        · exact absurd hb h
      simp only [h', Bool.false_eq_true, if_false]
      exact ih (j + 1)

/-! ## Helper lemmas: value objects and the Water entity -/

theorem referenciaMensal_spec (texto : String) (r : ReferenciaMensal)
    (h : referenciaMensal texto = some r) :
    1 ≤ r.mes ∧ r.mes ≤ 12 ∧ r.referencia = pad2 r.mes ++ "/" ++ toString r.ano := by
  simp only [referenciaMensal] at h
  cases hb : buscarMMYYYY (removerSufixoAtual (stripLista texto.toList)) with
  | none => rw [hb] at h; cases h
  | some res =>
    obtain ⟨s, mes, ano⟩ := res
    rw [hb] at h
    simp only at h
    by_cases hm : (1 ≤ mes && mes ≤ 12) = true
    · rw [if_pos hm] at h
      injection h with h
      subst h
      simp only [Bool.and_eq_true, decide_eq_true_eq] at hm
      exact ⟨hm.1, hm.2, rfl⟩
    · rw [if_neg hm] at h
      cases h

theorem contaAguaCriar_spec (refTexto valTexto : String) (c : ContaAgua)
    (h : contaAguaCriar refTexto valTexto = some c) :
    ∃ ref v, referenciaMensal refTexto = some ref ∧ 1 ≤ ref.ano ∧
      valorMonetarioFromBruto (.texto valTexto) = some v ∧
      c = ⟨ref.mes, ref.ano, v.valorCentavos⟩ := by
  simp only [contaAguaCriar] at h
  split at h
  next => cases h
  next ref hr =>
    split at h
    next hano =>
      split at h
      next => cases h
      next v hv =>
        injection h with h
        exact ⟨ref, v, hr, hano, hv, h.symm⟩
    next => cases h

theorem valorFromBruto_texto (s : String) :
    valorMonetarioFromBruto (.texto s) =
      (analisarDecimal (normalizarSeparadores (limparTextoValor (stripLista s.toList)))).map
        ValorMonetario.deDecimal := by
  simp only [valorMonetarioFromBruto]
  cases analisarDecimal (normalizarSeparadores (limparTextoValor (stripLista s.toList))) <;> rfl

theorem quantizarCentavos_centesimos (n : Int) : quantizarCentavos ⟨n, -2⟩ = n := by
  simp [quantizarCentavos]

/-! ## Claim theorems -/

/-- Claim C6: `ValorMonetario.from_bruto` on a string strips whitespace
and the `R$` marker; with both separators present `.` is the thousands
separator and `,` the decimal separator; with only a comma the comma is
the decimal separator; otherwise the text is parsed directly; it fails
exactly when the cleaned, separator-normalized text is not a numeric
literal, and fails on an unsupported input type.  In particular
`from_bruto("R$ 1.234,56").to_centavos() = 123456` and
`from_bruto("abc")` fails. -/
theorem claim_C6_from_bruto :
    (valorMonetarioFromBruto (.texto "R$ 1.234,56")).map ValorMonetario.toCentavos
        = some 123456 ∧
    valorMonetarioFromBruto (.texto "abc") = none ∧
    valorMonetarioFromBruto .naoSuportado = none ∧
    (valorMonetarioFromBruto (.texto "1234,56")).map ValorMonetario.toCentavos
        = some 123456 ∧
    (valorMonetarioFromBruto (.texto "1234.5")).map ValorMonetario.toCentavos
        = some 123450 ∧
    (∀ s : String,
      (valorMonetarioFromBruto (.texto s) = none ↔
        analisarDecimal
          (normalizarSeparadores (limparTextoValor (stripLista s.toList))) = none)) ∧
    (∀ s : String,
      ((limparTextoValor (stripLista s.toList)).contains ','
          && (limparTextoValor (stripLista s.toList)).contains '.') = true →
        valorMonetarioFromBruto (.texto s) =
          (analisarDecimal
            (((limparTextoValor (stripLista s.toList)).filter (fun c => c != '.')).map
              (fun c => if c == ',' then '.' else c))).map ValorMonetario.deDecimal) ∧
    (∀ s : String,
      (limparTextoValor (stripLista s.toList)).contains ',' = true →
      (limparTextoValor (stripLista s.toList)).contains '.' = false →
        valorMonetarioFromBruto (.texto s) =
          (analisarDecimal
            ((limparTextoValor (stripLista s.toList)).map
              (fun c => if c == ',' then '.' else c))).map ValorMonetario.deDecimal) ∧
    (∀ s : String,
      (limparTextoValor (stripLista s.toList)).contains ',' = false →
        valorMonetarioFromBruto (.texto s) =
          (analisarDecimal (limparTextoValor (stripLista s.toList))).map
            ValorMonetario.deDecimal) := by
  refine ⟨by decide, by decide, rfl, by decide, by decide, ?_, ?_, ?_, ?_⟩
  · intro s
    rw [valorFromBruto_texto]
    cases analisarDecimal (normalizarSeparadores (limparTextoValor (stripLista s.toList))) <;>
      simp
  · intro s h
    rw [valorFromBruto_texto]
    congr 2
    simp only [normalizarSeparadores, h, if_true]
  · intro s h1 h2
    rw [valorFromBruto_texto]
    congr 2
    have hand : ((limparTextoValor (stripLista s.toList)).contains ','
        && (limparTextoValor (stripLista s.toList)).contains '.') = false := by
      rw [h1, h2]; rfl
    simp only [normalizarSeparadores]
    rw [hand]
    simp only [Bool.false_eq_true, if_false, h1, if_true]
  · intro s h1
    rw [valorFromBruto_texto]
    congr 2
    have hand : ((limparTextoValor (stripLista s.toList)).contains ','
        && (limparTextoValor (stripLista s.toList)).contains '.') = false := by
      rw [h1]; rfl
    simp only [normalizarSeparadores]
    rw [hand]
    simp only [Bool.false_eq_true, if_false, h1]

/-- Witness for C6: the three separator branches and the failure cases,
evaluated at concrete inputs. -/
theorem claim_C6_witness :
    valorMonetarioFromBruto (.texto "R$ 1.234,56") =
      (analisarDecimal
        (((limparTextoValor (stripLista ("R$ 1.234,56").toList)).filter
            (fun c => c != '.')).map
          (fun c => if c == ',' then '.' else c))).map ValorMonetario.deDecimal ∧
    valorMonetarioFromBruto (.texto "1234,56") =
      (analisarDecimal
        ((limparTextoValor (stripLista ("1234,56").toList)).map
          (fun c => if c == ',' then '.' else c))).map ValorMonetario.deDecimal ∧
    valorMonetarioFromBruto (.texto "1234.5") =
      (analisarDecimal (limparTextoValor (stripLista ("1234.5").toList))).map
        ValorMonetario.deDecimal ∧
    (valorMonetarioFromBruto (.texto "abc") = none ↔
      analisarDecimal
        (normalizarSeparadores (limparTextoValor (stripLista ("abc").toList))) = none) := by
  refine ⟨?_, ?_, ?_, ?_⟩
  · exact claim_C6_from_bruto.2.2.2.2.2.2.1 "R$ 1.234,56" (by decide)
  · exact claim_C6_from_bruto.2.2.2.2.2.2.2.1 "1234,56" (by decide) (by decide)
  · exact claim_C6_from_bruto.2.2.2.2.2.2.2.2 "1234.5" (by decide)
  · exact claim_C6_from_bruto.2.2.2.2.2.1 "abc"

/-- Claim C7: minor-unit round trip.  `from_centavos` is exact, so
`from_centavos(n).to_centavos() = n` for every integer `n`, and for every
successfully parsed raw string the value survives the
`to_centavos`/`from_centavos` round trip unchanged (its amount is already
2-decimal quantized, so no rounding occurs). -/
theorem claim_C7_round_trip :
    (∀ n : Int, (valorMonetarioFromCentavos n).toCentavos = n) ∧
    (∀ n : Int, valorMonetarioFromCentavos n = ⟨n⟩) ∧
    (∀ (s : String) (v : ValorMonetario),
      valorMonetarioFromBruto (.texto s) = some v →
        valorMonetarioFromCentavos v.toCentavos = v) := by
  refine ⟨?_, ?_, ?_⟩
  · intro n
    exact quantizarCentavos_centesimos n
  · intro n
    simp only [valorMonetarioFromCentavos, ValorMonetario.deDecimal,
      quantizarCentavos_centesimos]
  · intro s v _
    obtain ⟨c⟩ := v
    simp only [ValorMonetario.toCentavos, valorMonetarioFromCentavos,
      ValorMonetario.deDecimal, quantizarCentavos_centesimos]

/-- Witness for C7: the round trip at the parsed value of `"9.87"`. -/
theorem claim_C7_witness :
    valorMonetarioFromBruto (.texto "9.87") = some ⟨987⟩ ∧
    valorMonetarioFromCentavos (ValorMonetario.toCentavos ⟨987⟩) = ⟨987⟩ := by
  refine ⟨by decide, ?_⟩
  exact claim_C7_round_trip.2.2 "9.87" ⟨987⟩ (by decide)

/-- Counterexample for C8: the claim says the first `\d{2}/\d{4}` match
anywhere in the text is taken, which on `"103/2025"` would be `"03/2025"`
(month 3, a valid reference).  The code's pattern carries `\b` word
boundaries, so `"103/2025"` has no match at all and construction fails. -/
theorem claim_C8_counterexample :
    referenciaMensalSemFronteira "103/2025" = some ⟨"03/2025", 3, 2025⟩ ∧
    referenciaMensal "103/2025" = none := by
  exact ⟨by decide, by decide⟩

/-- Claim C8 (amended): `ReferenciaMensal` construction strips an
optional trailing `(Atual)` suffix, takes the first *word-boundary
delimited* `\d{2}/\d{4}` match of the remaining text, and fails exactly
when no such boundary-delimited pattern exists or the matched month is
outside 1–12; the canonical text is the zero-padded rendering.
`" 09/2025 (Atual) "` yields text `"09/2025"` and tuple `(9, 2025)`;
`"2025-09"` and `"13/2025"` fail. -/
theorem claim_C8_referencia_mensal :
    referenciaMensal " 09/2025 (Atual) " = some ⟨"09/2025", 9, 2025⟩ ∧
    referenciaMensal "2025-09" = none ∧
    referenciaMensal "13/2025" = none ∧
    (∀ texto : String,
      buscarMMYYYY (removerSufixoAtual (stripLista texto.toList)) = none →
        referenciaMensal texto = none) ∧
    (∀ (texto s : String) (mes ano : Nat),
      buscarMMYYYY (removerSufixoAtual (stripLista texto.toList)) = some (s, mes, ano) →
        (1 ≤ mes → mes ≤ 12 →
          referenciaMensal texto = some ⟨pad2 mes ++ "/" ++ toString ano, mes, ano⟩) ∧
        (mes = 0 ∨ 12 < mes → referenciaMensal texto = none)) := by
  refine ⟨by decide, by decide, by decide, ?_, ?_⟩
  · intro texto h
    simp only [referenciaMensal, h]
  · intro texto s mes ano h
    constructor
    · intro h1 h2
      simp only [referenciaMensal, h]
      rw [if_pos (by rw [decide_eq_true h1, decide_eq_true h2]; rfl)]
    · intro hfora
      simp only [referenciaMensal, h]
      rw [if_neg]
      intro hboth
      simp only [Bool.and_eq_true, decide_eq_true_eq] at hboth
      omega

/-- Witness for C8: the amended characterization applied at
`"13/2025"` (month out of range) and `" 09/2025 (Atual) "` (success). -/
theorem claim_C8_witness :
    referenciaMensal "13/2025" = none ∧
    referenciaMensal " 09/2025 (Atual) " =
      some ⟨pad2 9 ++ "/" ++ toString 2025, 9, 2025⟩ ∧
    referenciaMensal "2025-09" = none := by
  refine ⟨?_, ?_, ?_⟩
  · exact (claim_C8_referencia_mensal.2.2.2.2 "13/2025" "13/2025" 13 2025 (by decide)).2
      (by omega)
  · exact (claim_C8_referencia_mensal.2.2.2.2 " 09/2025 (Atual) " "09/2025" 9 2025
      (by decide)).1 (by omega) (by omega)
  · exact claim_C8_referencia_mensal.2.2.2.1 "2025-09" (by decide)

/-- Counterexample for C9: the claim says the first
`\d{1,2}/\d{1,2}/\d{4}` pattern in the trimmed input is taken, which on
`"111/9/2025"` would be `"11/9/2025"` (a real calendar date).  The code's
pattern carries `\b` word boundaries, so `"111/9/2025"` has no match and
construction fails. -/
theorem claim_C9_counterexample :
    normalizarDataSemFronteira "111/9/2025" =
      some ⟨"11/09/2025", 11, 9, 2025, "2025-09-11"⟩ ∧
    normalizarData "111/9/2025" = none := by
  exact ⟨by decide, by decide⟩

/-- Claim C9 (amended): `NormalizarData` construction takes the first
*word-boundary delimited* `\d{1,2}/\d{1,2}/\d{4}` match of the trimmed
input and accepts it exactly when the triple is a real Gregorian calendar
date, normalizing to `DD/MM/YYYY` and ISO `YYYY-MM-DD`.  `"1/9/2025"`
normalizes to `"01/09/2025"`/`"2025-09-01"`, `"29/02/2024"` succeeds, and
the listed malformed or impossible dates all fail. -/
theorem claim_C9_normalizar_data :
    normalizarData "1/9/2025" = some ⟨"01/09/2025", 1, 9, 2025, "2025-09-01"⟩ ∧
    normalizarData "29/02/2024" = some ⟨"29/02/2024", 29, 2, 2024, "2024-02-29"⟩ ∧
    normalizarData "29/02/2021" = none ∧
    normalizarData "31/02/2021" = none ∧
    normalizarData "32/01/2020" = none ∧
    normalizarData "00/12/2020" = none ∧
    normalizarData "12/13/2020" = none ∧
    normalizarData "1/1/20" = none ∧
    normalizarData "abc" = none ∧
    (∀ texto : String,
      buscarData (stripLista texto.toList) = none → normalizarData texto = none) ∧
    (∀ (texto : String) (dia mes ano : Nat),
      buscarData (stripLista texto.toList) = some (dia, mes, ano) →
        (dataValida ano mes dia = true →
          normalizarData texto =
            some ⟨pad2 dia ++ "/" ++ pad2 mes ++ "/" ++ toString ano, dia, mes, ano,
              pad4 ano ++ "-" ++ pad2 mes ++ "-" ++ pad2 dia⟩) ∧
        (dataValida ano mes dia = false → normalizarData texto = none)) := by
  refine ⟨by decide, by decide, by decide, by decide, by decide, by decide, by decide,
    by decide, by decide, ?_, ?_⟩
  · intro texto h
    simp only [normalizarData, h]
  · intro texto dia mes ano h
    constructor
    · intro hv
      simp only [normalizarData, h, hv, if_true]
    · intro hv
      simp only [normalizarData, h, hv, Bool.false_eq_true, if_false]

/-- Witness for C9: the amended characterization applied at
`"29/02/2024"` (valid leap date) and `"29/02/2021"` (invalid date). -/
theorem claim_C9_witness :
    normalizarData "29/02/2024" =
      some ⟨pad2 29 ++ "/" ++ pad2 2 ++ "/" ++ toString 2024, 29, 2, 2024,
        pad4 2024 ++ "-" ++ pad2 2 ++ "-" ++ pad2 29⟩ ∧
    normalizarData "29/02/2021" = none ∧
    normalizarData "abc" = none := by
  refine ⟨?_, ?_, ?_⟩
  · exact (claim_C9_normalizar_data.2.2.2.2.2.2.2.2.2.2 "29/02/2024" 29 2 2024
      (by decide)).1 (by decide)
  · exact (claim_C9_normalizar_data.2.2.2.2.2.2.2.2.2.2 "29/02/2021" 29 2 2021
      (by decide)).2 (by decide)
  · exact claim_C9_normalizar_data.2.2.2.2.2.2.2.2.2.1 "abc" (by decide)

/-- Counterexample for C5: on a table whose only row is a header row, the
claim's rule ("found at index `i` → result `(i, i+1)`") yields `(0, 1)`,
but the code requires `i + 1 < len(df)` and `break`s to the fallback
`(4, 5)` when the matching row is the last row. -/
theorem claim_C5_counterexample :
    linhaEhCabecalho ["Data Documento Número Referência"] = true ∧
    detectarIndicesSegundoClaim [["Data Documento Número Referência"]] = (0, 1) ∧
    detectarIndicesCabecalhoEDados [["Data Documento Número Referência"]] = (4, 5) := by
  exact ⟨by decide, by decide, by decide⟩

/-- Claim C5 (amended): header/data index detection scans rows in order
for one whose normalized text contains all of
`{data, documento, numero, referencia}`; if the first such row is at
index `i` *and a further row exists* (`i + 1 < row count`), the result is
`(i, i+1)`; otherwise — no match, or a match on the last row — the result
is the fixed default `(4, 5)`. -/
theorem claim_C5_detectar_indices :
    (∀ linhas : List Linha,
      detectarIndicesCabecalhoEDados linhas =
        match List.findIdx? linhaEhCabecalho linhas 0 with
        | some i => if i + 1 < linhas.length then (i, i + 1) else (4, 5)
        | none => (4, 5)) ∧
    linhaEhCabecalho ["Data Documento Número Referência"] = true ∧
    linhaEhCabecalho ["Data Documento Numero Referencia"] = true ∧
    detectarIndicesCabecalhoEDados
      [["irrelevante"], ["Data Documento Número Referência"], ["01/09/2025"]] = (1, 2) ∧
    detectarIndicesCabecalhoEDados [["nada a ver"]] = (4, 5) := by
  refine ⟨?_, by decide, by decide, by decide, by decide⟩
  intro linhas
  exact detectarIndicesAux_eq linhas.length linhas 0

/-- Claim C4: the table locator returns the first table, in table order
and scanning rows in order, for which some row's space-joined cell text
satisfies the keyword predicate (all keywords if `exigir_todas`, else
any), with both row text and keywords accent-stripped and lowercased when
normalization is on, and a not-found sentinel otherwise.  The Electric
extractor locates its target with keywords
`{Data, Documento, Número, Referência}`, normalization on and
all-required, so the location is accent/diacritic-insensitive. -/
theorem claim_C4_localizar_tabela :
    (∀ (tabelas : List Tabela) (chaves : List String) (normalizar exigirTodas : Bool),
      localizarTabelaComPalavrasChave tabelas chaves normalizar exigirTodas =
        tabelas.find? (fun t => t.any (linhaSatisfazChaves
          (if normalizar then chaves.map semAcentosMinusculo else chaves)
          normalizar exigirTodas))) ∧
    (∀ (tabelas : List Tabela) (chaves : List String) (normalizar exigirTodas : Bool),
      localizarTabelaComPalavrasChave tabelas chaves normalizar exigirTodas = none ↔
        ∀ t ∈ tabelas, ¬(t.any (linhaSatisfazChaves
          (if normalizar then chaves.map semAcentosMinusculo else chaves)
          normalizar exigirTodas) = true)) ∧
    (∀ (tabelas : List Tabela) (chaves : List String) (normalizar exigirTodas : Bool)
        (t : Tabela),
      localizarTabelaComPalavrasChave tabelas chaves normalizar exigirTodas = some t →
        ∃ antes depois, tabelas = antes ++ t :: depois ∧
          (∀ t' ∈ antes, t'.any (linhaSatisfazChaves
            (if normalizar then chaves.map semAcentosMinusculo else chaves)
            normalizar exigirTodas) = false) ∧
          t.any (linhaSatisfazChaves
            (if normalizar then chaves.map semAcentosMinusculo else chaves)
            normalizar exigirTodas) = true) ∧
    palavrasChaveCelesc.map semAcentosMinusculo =
      ["data", "documento", "numero", "referencia"] ∧
    (∀ tabelas : List Tabela,
      localizarTabelaCelesc tabelas =
        tabelas.find? (fun t => t.any (linhaSatisfazChaves
          ["data", "documento", "numero", "referencia"] true true))) ∧
    localizarTabelaComPalavrasChave
        [[["foo", "bar"]], [["abc"], ["Referência consumo VALOR"], ["xyz"]]]
        ["referencia", "valor"] true true =
      some [["abc"], ["Referência consumo VALOR"], ["xyz"]] ∧
    localizarTabelaCelesc [[["Data Documento Numero Referencia"]]] =
      some [["Data Documento Numero Referencia"]] ∧
    localizarTabelaCelesc [[["Data Documento Número Referência"]]] =
      some [["Data Documento Número Referência"]] := by
  have hgeral : ∀ (tabelas : List Tabela) (chaves : List String)
      (normalizar exigirTodas : Bool),
      localizarTabelaComPalavrasChave tabelas chaves normalizar exigirTodas =
        tabelas.find? (fun t => t.any (linhaSatisfazChaves
          (if normalizar then chaves.map semAcentosMinusculo else chaves)
          normalizar exigirTodas)) := by
    intro tabelas chaves normalizar exigirTodas
    simp only [localizarTabelaComPalavrasChave]
    exact percorrerTabelas_eq_find _ normalizar exigirTodas tabelas
  refine ⟨hgeral, ?_, ?_, by decide, ?_, by decide, by decide, by decide⟩
  · intro tabelas chaves normalizar exigirTodas
    rw [hgeral]
    exact List.find?_eq_none
  · intro tabelas chaves normalizar exigirTodas t h
    rw [hgeral] at h
    exact find_primeiro _ tabelas t h
  · intro tabelas
    have h := hgeral tabelas palavrasChaveCelesc true true
    have hmap : (if true = true then palavrasChaveCelesc.map semAcentosMinusculo
        else palavrasChaveCelesc) = ["data", "documento", "numero", "referencia"] := by
      decide
    simp only [localizarTabelaCelesc]
    rw [h, hmap]

/-- Witness for C4: the some-case characterization at the spec's concrete
example (keywords `{referencia, valor}`, second table matches). -/
theorem claim_C4_witness :
    ∃ antes depois,
      ([[["foo", "bar"]], [["abc"], ["Referência consumo VALOR"], ["xyz"]]] : List Tabela) =
        antes ++ ([["abc"], ["Referência consumo VALOR"], ["xyz"]] : Tabela) :: depois ∧
      (∀ t' ∈ antes, t'.any (linhaSatisfazChaves
        (if true then (["referencia", "valor"] : List String).map semAcentosMinusculo
          else ["referencia", "valor"]) true true) = false) ∧
      ([["abc"], ["Referência consumo VALOR"], ["xyz"]] : Tabela).any
        (linhaSatisfazChaves
          (if true then (["referencia", "valor"] : List String).map semAcentosMinusculo
            else ["referencia", "valor"]) true true) = true := by
  exact claim_C4_localizar_tabela.2.2.1
    [[["foo", "bar"]], [["abc"], ["Referência consumo VALOR"], ["xyz"]]]
    ["referencia", "valor"] true true
    [["abc"], ["Referência consumo VALOR"], ["xyz"]] (by decide)

/-- Claim C3: SAMAE current-row selection: the first row whose normalized
first cell contains the `"(atual)"` marker is selected; with no marked
row, a row whose first cell carries the greatest `YYYY*100+MM` reference
is selected; selection fails exactly when, no row being marked, no row's
first cell yields a parseable month/year.  The output reference is the
first word-boundary `MM/YYYY` match of the selected row's first cell with
`" (Atual)"` appended, even when that row carried no marker. -/
theorem claim_C3_samae_linha_atual :
    (∀ (linhas : List Linha) (l : Linha),
      linhas.find? linhaMarcadaAtual = some l →
        selecionarLinhaAtual linhas = some l ∧
          ∃ antes depois, linhas = antes ++ l :: depois ∧
            (∀ b ∈ antes, linhaMarcadaAtual b = false) ∧ linhaMarcadaAtual l = true) ∧
    (∀ (linhas : List Linha) (l : Linha),
      linhas.find? linhaMarcadaAtual = none →
        selecionarLinhaAtual linhas = some l →
          l ∈ linhas ∧ ∃ v, ordemYyyymm l = some v ∧
            ∀ l' ∈ linhas, ∀ w, ordemYyyymm l' = some w → w ≤ v) ∧
    (∀ linhas : List Linha,
      linhas.find? linhaMarcadaAtual = none →
        (selecionarLinhaAtual linhas = none ↔ ∀ l ∈ linhas, ordemYyyymm l = none)) ∧
    (∀ (linhas : List Linha) (l : Linha),
      selecionarLinhaAtual linhas = some l →
        referenciaAtualSamae linhas =
          (buscarMMYYYY (primeiraCelula l).toList).map (fun r => r.1 ++ " (Atual)")) ∧
    referenciaAtualSamae [["07/2025", "38,00"], ["08/2025", "39,10"], ["09/2025", "42,20"]]
        = some "09/2025 (Atual)" ∧
    referenciaAtualSamae [["08/2025", "39,10"], ["09/2025 (Atual)", "42,20"]]
        = some "09/2025 (Atual)" ∧
    linhaMarcadaAtual ["09/2025 (ATUAL)", "42,20"] = true ∧
    selecionarLinhaAtual [["sem referencia"], ["outra linha"]] = none := by
  refine ⟨?_, ?_, ?_, ?_, by decide, by decide, by decide, by decide⟩
  · intro linhas l h
    refine ⟨by simp only [selecionarLinhaAtual, h], ?_⟩
    obtain ⟨antes, depois, heq, hantes, hl⟩ := find_primeiro linhaMarcadaAtual linhas l h
    exact ⟨antes, depois, heq, hantes, hl⟩
  · intro linhas l hnone hsel
    simp only [selecionarLinhaAtual, hnone, Option.map_eq_some'] at hsel
    obtain ⟨⟨l', v⟩, hfold, hfst⟩ := hsel
    simp only at hfst
    rw [hfst] at hfold
    obtain ⟨h1, h2, _⟩ := foldl_passoMaximo_some linhas none l v hfold
    rcases h1 with h1 | h1
    · cases h1
    · exact ⟨h1.1, v, h1.2, h2⟩
  · intro linhas hnone
    simp only [selecionarLinhaAtual, hnone, Option.map_eq_none']
    rw [show primeiraLinhaMaxima linhas = linhas.foldl passoMaximo none from rfl,
      foldl_passoMaximo_none linhas none]
    simp
  · intro linhas l h
    simp only [referenciaAtualSamae, h, Option.some_bind]
    rfl

/-- Witness for C3: the selection characterizations applied at the
marked two-row table and at the unmarked three-row table. -/
theorem claim_C3_witness :
    selecionarLinhaAtual [["08/2025", "39,10"], ["09/2025 (Atual)", "42,20"]] =
      some ["09/2025 (Atual)", "42,20"] ∧
    (["09/2025", "42,20"] : Linha) ∈
        ([["07/2025", "38,00"], ["08/2025", "39,10"], ["09/2025", "42,20"]] : List Linha) ∧
    (∃ v, ordemYyyymm ["09/2025", "42,20"] = some v ∧
      ∀ l' ∈ ([["07/2025", "38,00"], ["08/2025", "39,10"], ["09/2025", "42,20"]] :
          List Linha), ∀ w, ordemYyyymm l' = some w → w ≤ v) ∧
    referenciaAtualSamae [["07/2025", "38,00"], ["08/2025", "39,10"], ["09/2025", "42,20"]]
      = (buscarMMYYYY (primeiraCelula ["09/2025", "42,20"]).toList).map
          (fun r => r.1 ++ " (Atual)") := by
  have h1 := (claim_C3_samae_linha_atual.1
    [["08/2025", "39,10"], ["09/2025 (Atual)", "42,20"]]
    ["09/2025 (Atual)", "42,20"] (by decide)).1
  have h2 := claim_C3_samae_linha_atual.2.1
    [["07/2025", "38,00"], ["08/2025", "39,10"], ["09/2025", "42,20"]]
    ["09/2025", "42,20"] (by decide) (by decide)
  have h4 := claim_C3_samae_linha_atual.2.2.2.1
    [["07/2025", "38,00"], ["08/2025", "39,10"], ["09/2025", "42,20"]]
    ["09/2025", "42,20"] (by decide)
  exact ⟨h1, h2.1, h2.2, h4⟩

theorem lacoLuz_mapa (extrair : String → Except Unit (List ContaLuz)) (paths : List String) :
    (lacoLuz extrair paths ⟨[], 0, []⟩).mapa =
      (linhasExtraidasLuz extrair paths).foldl
        (fun m c => inserirNoMapa m c.referencia c) [] := by
  rw [lacoLuz_eq]

theorem lacoLuz_falhas (extrair : String → Except Unit (List ContaLuz)) (paths : List String) :
    (lacoLuz extrair paths ⟨[], 0, []⟩).falhas = paths.filter (falhaLuz extrair) := by
  rw [lacoLuz_eq]
  exact List.nil_append _

theorem lacoLuz_linhas (extrair : String → Except Unit (List ContaLuz)) (paths : List String) :
    (lacoLuz extrair paths ⟨[], 0, []⟩).linhas = (linhasExtraidasLuz extrair paths).length := by
  rw [lacoLuz_eq]
  simp

theorem lacoAgua_mapa (extrair : String → Except Unit (String × String)) (paths : List String) :
    (lacoAgua extrair paths ⟨[], 0, []⟩).mapa =
      (contasExtraidasAgua extrair paths).foldl
        (fun m c => inserirNoMapa m c.referencia c) [] := by
  rw [lacoAgua_eq]

theorem lacoAgua_falhas (extrair : String → Except Unit (String × String))
    (paths : List String) :
    (lacoAgua extrair paths ⟨[], 0, []⟩).falhas = paths.filter (falhaAgua extrair) := by
  rw [lacoAgua_eq]
  exact List.nil_append _

theorem lacoAgua_linhas (extrair : String → Except Unit (String × String))
    (paths : List String) :
    (lacoAgua extrair paths ⟨[], 0, []⟩).linhas =
      (contasExtraidasAgua extrair paths).length := by
  rw [lacoAgua_eq]
  simp

theorem syncLuz_resumo (extrair : String → Except Unit (List ContaLuz))
    (addMany : List ContaLuz → Nat) (existentes paths : List String) :
    (syncFromPdfsLuz extrair addMany existentes paths).pdfCount = paths.length ∧
    (syncFromPdfsLuz extrair addMany existentes paths).failedFiles =
      paths.filter (falhaLuz extrair) ∧
    (syncFromPdfsLuz extrair addMany existentes paths).filesFailed =
      (paths.filter (falhaLuz extrair)).length ∧
    (syncFromPdfsLuz extrair addMany existentes paths).filesProcessed =
      paths.length - (paths.filter (falhaLuz extrair)).length ∧
    (syncFromPdfsLuz extrair addMany existentes paths).rowsParsed =
      (linhasExtraidasLuz extrair paths).length ∧
    (syncFromPdfsLuz extrair addMany existentes paths).distinctReferencesFound =
      (lacoLuz extrair paths ⟨[], 0, []⟩).mapa.length ∧
    (syncFromPdfsLuz extrair addMany existentes paths).createdReferences =
      novasReferencias (lacoLuz extrair paths ⟨[], 0, []⟩).mapa existentes ∧
    (syncFromPdfsLuz extrair addMany existentes paths).created =
      (if (contasParaInserir (lacoLuz extrair paths ⟨[], 0, []⟩).mapa existentes).isEmpty
        then 0
        else addMany (contasParaInserir (lacoLuz extrair paths ⟨[], 0, []⟩).mapa existentes)) ∧
    (syncFromPdfsLuz extrair addMany existentes paths).skipped =
      ((lacoLuz extrair paths ⟨[], 0, []⟩).mapa.length : Int) -
        ((syncFromPdfsLuz extrair addMany existentes paths).created : Int) := by
  simp only [syncFromPdfsLuz, montarResumo, lacoLuz_falhas, lacoLuz_linhas]
  repeat' apply And.intro
  all_goals trivial

theorem syncAgua_resumo (extrair : String → Except Unit (String × String))
    (addMany : List ContaAgua → Nat) (existentes paths : List String) :
    (syncFromPdfsAgua extrair addMany existentes paths).pdfCount = paths.length ∧
    (syncFromPdfsAgua extrair addMany existentes paths).failedFiles =
      paths.filter (falhaAgua extrair) ∧
    (syncFromPdfsAgua extrair addMany existentes paths).filesFailed =
      (paths.filter (falhaAgua extrair)).length ∧
    (syncFromPdfsAgua extrair addMany existentes paths).filesProcessed =
      paths.length - (paths.filter (falhaAgua extrair)).length ∧
    (syncFromPdfsAgua extrair addMany existentes paths).rowsParsed =
      (contasExtraidasAgua extrair paths).length ∧
    (syncFromPdfsAgua extrair addMany existentes paths).distinctReferencesFound =
      (lacoAgua extrair paths ⟨[], 0, []⟩).mapa.length ∧
    (syncFromPdfsAgua extrair addMany existentes paths).createdReferences =
      novasReferencias (lacoAgua extrair paths ⟨[], 0, []⟩).mapa existentes ∧
    (syncFromPdfsAgua extrair addMany existentes paths).created =
      (if (contasParaInserir (lacoAgua extrair paths ⟨[], 0, []⟩).mapa existentes).isEmpty
        then 0
        else addMany (contasParaInserir (lacoAgua extrair paths ⟨[], 0, []⟩).mapa existentes)) ∧
    (syncFromPdfsAgua extrair addMany existentes paths).skipped =
      ((lacoAgua extrair paths ⟨[], 0, []⟩).mapa.length : Int) -
        ((syncFromPdfsAgua extrair addMany existentes paths).created : Int) := by
  simp only [syncFromPdfsAgua, montarResumo, lacoAgua_falhas, lacoAgua_linhas]
  repeat' apply And.intro
  all_goals trivial

theorem mem_fold_inserir {α : Type} (chaveDe : α → String) :
    ∀ (contas : List α) (m : List (String × α)) (par : String × α),
      par ∈ contas.foldl (fun m c => inserirNoMapa m (chaveDe c) c) m →
        par ∈ m ∨ ∃ c ∈ contas, par = (chaveDe c, c) := by
  intro contas
  induction contas with
  | nil => intro m par h; exact Or.inl h
  | cons c resto ih =>
    intro m par h
    simp only [List.foldl_cons] at h
    rcases ih (inserirNoMapa m (chaveDe c) c) par h with h1 | h1
    · rcases mem_inserirNoMapa m (chaveDe c) c par h1 with h2 | h2
      · exact Or.inl h2
      · exact Or.inr ⟨c, List.mem_cons_self _ _, h2⟩
    · obtain ⟨c', hc', he⟩ := h1
      exact Or.inr ⟨c', List.mem_cons_of_mem _ hc', he⟩

/-- Claim C1: for every batch, both sync services collect the
successfully extracted rows into a mapping keyed by reference where the
last row processed in input order wins, hand the repository exactly the
collected references absent from `list_existing_references` in collection
order, and report `distinct_references_found` = number of distinct
collected references, `created_references` = the new references, and
`skipped = distinct_references_found - created`. -/
theorem claim_C1_sync_dedup_diff :
    (∀ (extrair : String → Except Unit (List ContaLuz)) (addMany : List ContaLuz → Nat)
        (existentes paths : List String),
      (lacoLuz extrair paths ⟨[], 0, []⟩).mapa.map Prod.fst =
          dedupPrimeira ((linhasExtraidasLuz extrair paths).map ContaLuz.referencia) ∧
      (∀ ref, (lacoLuz extrair paths ⟨[], 0, []⟩).mapa.lookup ref =
          ultimaOcorrencia ContaLuz.referencia ref (linhasExtraidasLuz extrair paths)) ∧
      (syncFromPdfsLuz extrair addMany existentes paths).createdReferences =
          (dedupPrimeira ((linhasExtraidasLuz extrair paths).map ContaLuz.referencia)).filter
            (fun r => !existentes.contains r) ∧
      contasParaInserir (lacoLuz extrair paths ⟨[], 0, []⟩).mapa existentes =
          ((syncFromPdfsLuz extrair addMany existentes paths).createdReferences).filterMap
            (fun r => (lacoLuz extrair paths ⟨[], 0, []⟩).mapa.lookup r) ∧
      (syncFromPdfsLuz extrair addMany existentes paths).distinctReferencesFound =
          (dedupPrimeira
            ((linhasExtraidasLuz extrair paths).map ContaLuz.referencia)).length ∧
      (syncFromPdfsLuz extrair addMany existentes paths).skipped =
          ((syncFromPdfsLuz extrair addMany existentes paths).distinctReferencesFound : Int) -
            ((syncFromPdfsLuz extrair addMany existentes paths).created : Int)) ∧
    (∀ (extrair : String → Except Unit (String × String)) (addMany : List ContaAgua → Nat)
        (existentes paths : List String),
      (lacoAgua extrair paths ⟨[], 0, []⟩).mapa.map Prod.fst =
          dedupPrimeira ((contasExtraidasAgua extrair paths).map ContaAgua.referencia) ∧
      (∀ ref, (lacoAgua extrair paths ⟨[], 0, []⟩).mapa.lookup ref =
          ultimaOcorrencia ContaAgua.referencia ref (contasExtraidasAgua extrair paths)) ∧
      (syncFromPdfsAgua extrair addMany existentes paths).createdReferences =
          (dedupPrimeira
            ((contasExtraidasAgua extrair paths).map ContaAgua.referencia)).filter
            (fun r => !existentes.contains r) ∧
      contasParaInserir (lacoAgua extrair paths ⟨[], 0, []⟩).mapa existentes =
          ((syncFromPdfsAgua extrair addMany existentes paths).createdReferences).filterMap
            (fun r => (lacoAgua extrair paths ⟨[], 0, []⟩).mapa.lookup r) ∧
      (syncFromPdfsAgua extrair addMany existentes paths).distinctReferencesFound =
          (dedupPrimeira
            ((contasExtraidasAgua extrair paths).map ContaAgua.referencia)).length ∧
      (syncFromPdfsAgua extrair addMany existentes paths).skipped =
          ((syncFromPdfsAgua extrair addMany existentes paths).distinctReferencesFound : Int) -
            ((syncFromPdfsAgua extrair addMany existentes paths).created : Int)) := by
  constructor
  · intro extrair addMany existentes paths
    obtain ⟨_, _, _, _, _, hdist, hnovas, _, hskip⟩ :=
      syncLuz_resumo extrair addMany existentes paths
    have hchaves : (lacoLuz extrair paths ⟨[], 0, []⟩).mapa.map Prod.fst =
        dedupPrimeira ((linhasExtraidasLuz extrair paths).map ContaLuz.referencia) := by
      rw [lacoLuz_mapa, chaves_fold_inserir]
      simp
    have hlookup : ∀ ref, (lacoLuz extrair paths ⟨[], 0, []⟩).mapa.lookup ref =
        ultimaOcorrencia ContaLuz.referencia ref (linhasExtraidasLuz extrair paths) := by
      intro ref
      rw [lacoLuz_mapa, lookup_fold_inserir]
      cases ultimaOcorrencia ContaLuz.referencia ref (linhasExtraidasLuz extrair paths) <;>
        rfl
    refine ⟨hchaves, hlookup, ?_, ?_, ?_, ?_⟩
    · rw [hnovas, novasReferencias, hchaves]
    · rw [hnovas]
      rfl
    · rw [hdist, ← hchaves, List.length_map]
    · rw [hskip, hdist]
  · intro extrair addMany existentes paths
    obtain ⟨_, _, _, _, _, hdist, hnovas, _, hskip⟩ :=
      syncAgua_resumo extrair addMany existentes paths
    have hchaves : (lacoAgua extrair paths ⟨[], 0, []⟩).mapa.map Prod.fst =
        dedupPrimeira ((contasExtraidasAgua extrair paths).map ContaAgua.referencia) := by
      rw [lacoAgua_mapa, chaves_fold_inserir]
      simp
    have hlookup : ∀ ref, (lacoAgua extrair paths ⟨[], 0, []⟩).mapa.lookup ref =
        ultimaOcorrencia ContaAgua.referencia ref (contasExtraidasAgua extrair paths) := by
      intro ref
      rw [lacoAgua_mapa, lookup_fold_inserir]
      cases ultimaOcorrencia ContaAgua.referencia ref (contasExtraidasAgua extrair paths) <;>
        rfl
    refine ⟨hchaves, hlookup, ?_, ?_, ?_, ?_⟩
    · rw [hnovas, novasReferencias, hchaves]
    · rw [hnovas]
      rfl
    · rw [hdist, ← hchaves, List.length_map]
    · rw [hskip, hdist]

/-- Claim C2: an extraction failure on a single path never aborts the
batch: the failing path is appended to `failed_files` (in input order),
the remaining paths are still processed, rows from the successful paths
are still collected and offered for insertion, and the summary satisfies
`files_failed = |failed_files|` and
`files_processed = pdf_count - files_failed`.  The concrete batch of two
good documents and one corrupt document yields
`files_processed = 2, files_failed = 1` with both good rows created. -/
theorem claim_C2_falha_parcial :
    (∀ (extrair : String → Except Unit (List ContaLuz)) (addMany : List ContaLuz → Nat)
        (existentes paths : List String),
      (syncFromPdfsLuz extrair addMany existentes paths).failedFiles =
          paths.filter (falhaLuz extrair) ∧
      (syncFromPdfsLuz extrair addMany existentes paths).filesFailed =
          (syncFromPdfsLuz extrair addMany existentes paths).failedFiles.length ∧
      (syncFromPdfsLuz extrair addMany existentes paths).pdfCount = paths.length ∧
      (syncFromPdfsLuz extrair addMany existentes paths).filesFailed ≤
          (syncFromPdfsLuz extrair addMany existentes paths).pdfCount ∧
      ((syncFromPdfsLuz extrair addMany existentes paths).filesProcessed : Int) =
          ((syncFromPdfsLuz extrair addMany existentes paths).pdfCount : Int) -
            ((syncFromPdfsLuz extrair addMany existentes paths).filesFailed : Int) ∧
      (lacoLuz extrair paths ⟨[], 0, []⟩).mapa =
          coletarPorReferencia ContaLuz.referencia (linhasExtraidasLuz extrair paths) ∧
      (syncFromPdfsLuz extrair addMany existentes paths).created =
          (if (contasParaInserir (lacoLuz extrair paths ⟨[], 0, []⟩).mapa
              existentes).isEmpty
            then 0
            else addMany (contasParaInserir (lacoLuz extrair paths ⟨[], 0, []⟩).mapa
              existentes))) ∧
    (∀ (extrair : String → Except Unit (String × String)) (addMany : List ContaAgua → Nat)
        (existentes paths : List String),
      (syncFromPdfsAgua extrair addMany existentes paths).failedFiles =
          paths.filter (falhaAgua extrair) ∧
      (syncFromPdfsAgua extrair addMany existentes paths).filesFailed =
          (syncFromPdfsAgua extrair addMany existentes paths).failedFiles.length ∧
      (syncFromPdfsAgua extrair addMany existentes paths).pdfCount = paths.length ∧
      (syncFromPdfsAgua extrair addMany existentes paths).filesFailed ≤
          (syncFromPdfsAgua extrair addMany existentes paths).pdfCount ∧
      ((syncFromPdfsAgua extrair addMany existentes paths).filesProcessed : Int) =
          ((syncFromPdfsAgua extrair addMany existentes paths).pdfCount : Int) -
            ((syncFromPdfsAgua extrair addMany existentes paths).filesFailed : Int) ∧
      (lacoAgua extrair paths ⟨[], 0, []⟩).mapa =
          coletarPorReferencia ContaAgua.referencia (contasExtraidasAgua extrair paths) ∧
      (syncFromPdfsAgua extrair addMany existentes paths).created =
          (if (contasParaInserir (lacoAgua extrair paths ⟨[], 0, []⟩).mapa
              existentes).isEmpty
            then 0
            else addMany (contasParaInserir (lacoAgua extrair paths ⟨[], 0, []⟩).mapa
              existentes))) ∧
    (syncFromPdfsLuz exemploExtrairLuz (fun l => l.length) [] exemploLote).filesProcessed
        = 2 ∧
    (syncFromPdfsLuz exemploExtrairLuz (fun l => l.length) [] exemploLote).filesFailed = 1 ∧
    (syncFromPdfsLuz exemploExtrairLuz (fun l => l.length) [] exemploLote).failedFiles =
        ["ruim.pdf"] ∧
    (syncFromPdfsLuz exemploExtrairLuz (fun l => l.length) [] exemploLote).created = 2 ∧
    (syncFromPdfsAgua exemploExtrairAgua (fun l => l.length) [] exemploLote).filesProcessed
        = 2 ∧
    (syncFromPdfsAgua exemploExtrairAgua (fun l => l.length) [] exemploLote).filesFailed
        = 1 ∧
    (syncFromPdfsAgua exemploExtrairAgua (fun l => l.length) [] exemploLote).created = 2 := by
  refine ⟨?_, ?_, by decide, by decide, by decide, by decide, by decide, by decide,
    by decide⟩
  · intro extrair addMany existentes paths
    obtain ⟨hcount, hfiles, hfailed, hproc, _, _, _, hcreated, _⟩ :=
      syncLuz_resumo extrair addMany existentes paths
    have hle : (paths.filter (falhaLuz extrair)).length ≤ paths.length :=
      List.length_filter_le _ _
    refine ⟨hfiles, ?_, hcount, ?_, ?_, ?_, hcreated⟩
    · rw [hfailed, hfiles]
    · rw [hfailed, hcount]; exact hle
    · rw [hproc, hcount, hfailed]
      omega
    · rw [lacoLuz_mapa]
      rfl
  · intro extrair addMany existentes paths
    obtain ⟨hcount, hfiles, hfailed, hproc, _, _, _, hcreated, _⟩ :=
      syncAgua_resumo extrair addMany existentes paths
    have hle : (paths.filter (falhaAgua extrair)).length ≤ paths.length :=
      List.length_filter_le _ _
    refine ⟨hfiles, ?_, hcount, ?_, ?_, ?_, hcreated⟩
    · rw [hfailed, hfiles]
    · rw [hfailed, hcount]; exact hle
    · rw [hproc, hcount, hfailed]
      omega
    · rw [lacoAgua_mapa]
      rfl

/-- Claim C10 (implicit): in the Water sync service every key of the
collected mapping (and hence every reported created reference) is the
entity's canonical zero-padded `MM/YYYY` rendering of the extracted
reference text: `ContaAgua.criar`'s value-object normalization strips the
`" (Atual)"` marker and any surrounding text before the reference is used
for deduplication, the diff and the summary. -/
theorem claim_C10_referencia_canonica :
    (∀ (extrair : String → Except Unit (String × String)) (addMany : List ContaAgua → Nat)
        (existentes paths : List String),
      (∀ par ∈ (lacoAgua extrair paths ⟨[], 0, []⟩).mapa,
        par.1 = (par.2 : ContaAgua).referencia ∧
        par.1 = pad2 par.2.mes ++ "/" ++ toString par.2.ano ∧
        1 ≤ par.2.mes ∧ par.2.mes ≤ 12 ∧ 1 ≤ par.2.ano ∧
        ∃ p ∈ paths, ∃ rawRef rawVal, extrair p = .ok (rawRef, rawVal) ∧
          ∃ ref, referenciaMensal rawRef = some ref ∧
            ref.mes = par.2.mes ∧ ref.ano = par.2.ano) ∧
      (∀ k ∈ (syncFromPdfsAgua extrair addMany existentes paths).createdReferences,
        ∃ par ∈ (lacoAgua extrair paths ⟨[], 0, []⟩).mapa, k = par.1)) ∧
    (contaAguaCriar "09/2025 (Atual)" "42,20").map ContaAgua.referencia = some "09/2025" ∧
    referenciaMensal "09/2025 (Atual)" = some ⟨"09/2025", 9, 2025⟩ := by
  refine ⟨?_, by decide, by decide⟩
  intro extrair addMany existentes paths
  have hmem : ∀ par ∈ (lacoAgua extrair paths ⟨[], 0, []⟩).mapa,
      ∃ c ∈ contasExtraidasAgua extrair paths, par = (c.referencia, c) := by
    intro par hpar
    rw [lacoAgua_mapa] at hpar
    rcases mem_fold_inserir ContaAgua.referencia (contasExtraidasAgua extrair paths) []
        par hpar with h | h
    · cases h
    · exact h
  constructor
  · intro par hpar
    obtain ⟨c, hc, hpareq⟩ := hmem par hpar
    obtain ⟨p, hp, hcon⟩ := List.mem_filterMap.mp hc
    have hok : ∃ rawRef rawVal, extrair p = .ok (rawRef, rawVal) ∧
        contaAguaCriar rawRef rawVal = some c := by
      unfold contaExtraidaAgua at hcon
      cases hx : extrair p with
      | error u => rw [hx] at hcon; cases hcon
      | ok par0 =>
        obtain ⟨rawRef, rawVal⟩ := par0
        rw [hx] at hcon
        exact ⟨rawRef, rawVal, rfl, hcon⟩
    obtain ⟨rawRef, rawVal, hx, hcriar⟩ := hok
    obtain ⟨ref, v, href, hano, _, hceq⟩ := contaAguaCriar_spec rawRef rawVal c hcriar
    obtain ⟨hm1, hm2, _⟩ := referenciaMensal_spec rawRef ref href
    subst hpareq
    refine ⟨rfl, rfl, ?_, ?_, ?_, p, hp, rawRef, rawVal, hx, ref, href, ?_, ?_⟩
    · rw [hceq]; exact hm1
    · rw [hceq]; exact hm2
    · rw [hceq]; exact hano
    · rw [hceq]
    · rw [hceq]
  · intro k hk
    obtain ⟨_, _, _, _, _, _, hnovas, _, _⟩ := syncAgua_resumo extrair addMany existentes paths
    rw [hnovas, novasReferencias] at hk
    have hk' := List.mem_of_mem_filter hk
    obtain ⟨par, hpar, hkeq⟩ := List.mem_map.mp hk'
    exact ⟨par, hpar, hkeq.symm⟩

/-- Witness for C10: the canonical-key property read off the concrete
Water batch: the `"09/2025 (Atual)"` row is keyed `"09/2025"`. -/
theorem claim_C10_witness :
    (("09/2025", (⟨9, 2025, 4220⟩ : ContaAgua)) ∈
      (lacoAgua exemploExtrairAgua exemploLote ⟨[], 0, []⟩).mapa) ∧
    "09/2025" = pad2 9 ++ "/" ++ toString 2025 ∧
    1 ≤ (⟨9, 2025, 4220⟩ : ContaAgua).mes ∧ (⟨9, 2025, 4220⟩ : ContaAgua).mes ≤ 12 := by
  have h := ((claim_C10_referencia_canonica.1 exemploExtrairAgua (fun l => l.length) []
    exemploLote).1 ("09/2025", (⟨9, 2025, 4220⟩ : ContaAgua)) (by decide))
  exact ⟨by decide, h.2.1, h.2.2.1, h.2.2.2.1⟩
